import Mathlib

/-
  Verification of the CloudSecOps-Platform scan-evaluate-normalize-aggregate
  pipeline.  The definitions below are a shallow embedding of the Python code
  in src/backend/scanners/aws_scanner.py, src/backend/scanners/azure_scanner.py
  and src/backend/api/routes/compliance_routes.py.

  Modelling conventions:
  - boto3 / Azure SDK responses are typed records; a dictionary field read via
    .get with no default is an Option (absent ↦ none);
  - a provider API call that may raise is an Except value handed to the scan
    function, mirroring the try/except structure of the source;
  - uuid.uuid4() is modelled by a generator function applied to the running
    index of the emission inside one scan method, and datetime.utcnow() by a
    fixed timestamp token supplied with the scan context;
  - Python exceptions raised inside a scan method are propagated in the Except
    monad up to the try/except of that method, which converts them to an empty
    result, exactly as the source does.
-/

namespace CloudSecOps

/-- Modelled from the spec: the canonical 5-level severity scale declared in
src/backend/api/models/vulnerability.py, a file that is not under src/; the
member set is given by spec section 3 and by every use site in the scanners. -/
inductive SeverityLevel where
  | CRITICAL
  | HIGH
  | MEDIUM
  | LOW
  | INFO
deriving DecidableEq, Repr

/-- Modelled from the spec: the cloud-provider enum of
src/backend/api/models/vulnerability.py (absent from src/). -/
inductive CloudProvider where
  | AWS
  | AZURE
deriving DecidableEq, Repr

/-- Modelled from the spec: the finding lifecycle enum of
src/backend/api/models/vulnerability.py (absent from src/); the scanners only
ever use the OPEN member. -/
inductive VulnerabilityStatus where
  | OPEN
  | ACKNOWLEDGED
  | RESOLVED
deriving DecidableEq, Repr

/-- Modelled from the spec: the canonical Finding record of
src/backend/api/models/vulnerability.py (absent from src/), with exactly the
fields the scanners pass to its constructor.  Timestamps are abstract tokens
(Nat). -/
structure Vulnerability where
  id : String
  title : String
  description : String
  resource_id : String
  resource_type : String
  cloud_provider : CloudProvider
  region : String
  severity : SeverityLevel
  status : VulnerabilityStatus
  remediation_steps : String
  detected_at : Nat
  cvss_score : Option ℚ := none
deriving DecidableEq, Repr

/-- Scan context: the uuid4 generator (indexed by emission count inside one
scan method), the utcnow timestamp token, and the configured AWS region. -/
structure ScanCtx where
  uuidGen : Nat → String
  now : Nat
  region : String

/-- Python exception kinds that the scanner code can raise or receive from a
provider call. -/
inductive PyError where
  | typeError
  | valueError
  | indexError
  | attributeError
  | clientError
  | providerUnavailable
  | permissionDenied
deriving DecidableEq, Repr

/-- Python list indexing l[i] for a nonnegative index: raises IndexError when
the index is out of range. -/
def pyIndex {α : Type} (l : List α) (i : Nat) : Except PyError α :=
  match l.get? i with
  | some a => Except.ok a
  | none => Except.error PyError.indexError

/-- Python str.split(sep) for a single-character separator, by structural
recursion on the character list.  Splits at every occurrence and keeps empty
segments, exactly like Python. -/
def pySplitChars (c : Char) : List Char → List (List Char)
  | [] => [[]]
  | ch :: rest =>
    match pySplitChars c rest with
    | [] => [[]]
    | s :: ss => if ch = c then [] :: s :: ss else (ch :: s) :: ss

/-- Python s.split(c) for a one-character separator. -/
def pySplit (s : String) (c : Char) : List String :=
  (pySplitChars c s.data).map fun l => String.mk l

/-- Python membership test c in s for a one-character needle. -/
def pyContains (s : String) (c : Char) : Bool := s.data.contains c

/-- Decimal digit accumulation; none as soon as a non-digit appears. -/
def digitsToNat (l : List Char) : Option Nat :=
  l.foldl (fun acc ch =>
    match acc with
    | some n => if ch.isDigit then some (n * 10 + (ch.toNat - 48)) else none
    | none => none) (some 0)

/-- Python int(s) on an optionally signed decimal string; none models the
ValueError raised on anything else. -/
def pyToInt (s : String) : Option Int :=
  match s.data with
  | [] => none
  | '-' :: rest => if rest.isEmpty then none else (digitsToNat rest).map fun n => -(n : Int)
  | '+' :: rest => if rest.isEmpty then none else (digitsToNat rest).map fun n => (n : Int)
  | l => (digitsToNat l).map fun n => (n : Int)

/-- Enumerate a list with indices starting at n (the running uuid counter of
one scan method). -/
def enumFromN {α : Type} (n : Nat) : List α → List (Nat × α)
  | [] => []
  | a :: l => (n, a) :: enumFromN (n + 1) l

theorem enumFromN_length {α : Type} (n : Nat) (l : List α) :
    (enumFromN n l).length = l.length := by
  induction l generalizing n with
  | nil => rfl
  | cons a l ih => simp [enumFromN, ih]

theorem mem_enumFromN {α : Type} {n : Nat} {l : List α} {p : Nat × α}
    (h : p ∈ enumFromN n l) : p.2 ∈ l := by
  induction l generalizing n with
  | nil => simp [enumFromN] at h
  | cons a l ih =>
    simp only [enumFromN, List.mem_cons] at h
    rcases h with h | h
    · subst h; simp
    · exact List.mem_cons_of_mem _ (ih h)

theorem enumFromN_map_fst {α : Type} (n : Nat) (l : List α) :
    (enumFromN n l).map Prod.fst = List.range' n l.length := by
  induction l generalizing n with
  | nil => rfl
  | cons a l ih => simp [enumFromN, List.range', ih]

/-! ### AWS EC2 security groups (aws_scanner.py, scan_security_groups) -/

/-- One element of an IpPermission.IpRanges list; CidrIp read with .get. -/
structure IpRange where
  CidrIp : Option String
deriving DecidableEq, Repr

/-- One element of a security-group IpPermissions list.  FromPort/ToPort and
IpProtocol are read with .get (absent ↦ none / default). -/
structure IpPermission where
  FromPort : Option Int
  ToPort : Option Int
  IpProtocol : Option String
  IpRanges : List IpRange
deriving DecidableEq, Repr

/-- One security group of a describe_security_groups response. -/
structure SecurityGroup where
  GroupId : String
  GroupName : Option String
  IpPermissions : List IpPermission
deriving DecidableEq, Repr

/-- Administrative ports checked at aws_scanner.py line 97. -/
def adminPorts : List Int := [22, 3389, 1433, 3306, 5432]

/-- Severity assigned to a flagged ingress permission (aws_scanner.py lines
96-98): CRITICAL exactly when permission.get(FromPort) is in the admin list;
a missing FromPort (None) is not in the list, so MEDIUM. -/
def awsSgRuleSeverity (p : IpPermission) : SeverityLevel :=
  match p.FromPort with
  | some fp => if fp ∈ adminPorts then SeverityLevel.CRITICAL else SeverityLevel.MEDIUM
  | none => SeverityLevel.MEDIUM

/-- Port-range display string of aws_scanner.py line 92. -/
def awsPortRangeStr (p : IpPermission) : String :=
  (match p.FromPort with | some fp => toString fp | none => "Any") ++ "-" ++
  (match p.ToPort with | some tp => toString tp | none => "Any")

/-- The (group, permission, range) triples that the nested loops of
scan_security_groups flag: every IpRanges entry whose CidrIp is 0.0.0.0/0. -/
def awsSgHits (sgs : List SecurityGroup) : List (SecurityGroup × IpPermission) :=
  sgs.flatMap fun sg =>
    sg.IpPermissions.flatMap fun p =>
      (p.IpRanges.filter fun r => r.CidrIp = some "0.0.0.0/0").map fun _ => (sg, p)

/-- Vulnerability constructed at aws_scanner.py lines 100-114. -/
def mkSgVuln (ctx : ScanCtx) (k : Nat) (h : SecurityGroup × IpPermission) : Vulnerability :=
  let sg := h.1
  let p := h.2
  let sgName := sg.GroupName.getD "Unknown"
  { id := ctx.uuidGen k
    title := "Security Group " ++ sgName ++ " has overly permissive ingress rule"
    description := "Security Group " ++ sg.GroupId ++ " (" ++ sgName ++
      ") allows unrestricted access (0.0.0.0/0) for ports " ++ awsPortRangeStr p ++
      " using protocol " ++ (p.IpProtocol.getD "All") ++ "."
    resource_id := sg.GroupId
    resource_type := "SecurityGroup"
    cloud_provider := CloudProvider.AWS
    region := ctx.region
    severity := awsSgRuleSeverity p
    status := VulnerabilityStatus.OPEN
    remediation_steps := "Restrict the security group rule to only necessary IP ranges. Avoid using 0.0.0.0/0 especially for administrative ports."
    detected_at := ctx.now }

/-- AWSScanner.scan_security_groups: the describe_security_groups response is
the Except argument; any exception from it yields the empty result (lines
121-123). -/
def scan_security_groups (ctx : ScanCtx)
    (resp : Except PyError (List SecurityGroup)) : List Vulnerability :=
  match resp with
  | Except.error _ => []
  | Except.ok sgs => (enumFromN 0 (awsSgHits sgs)).map fun q => mkSgVuln ctx q.1 q.2

/-! ### AWS S3 buckets (aws_scanner.py, scan_s3_buckets) -/

/-- Outcome of the get_bucket_encryption call for one bucket: it either
returns a configuration, raises a botocore ClientError carrying an error code
(caught at lines 144-145), or raises some other exception (propagating to the
outer handler). -/
inductive S3EncResult where
  | configured
  | clientErr (code : String)
  | fatal (e : PyError)
deriving DecidableEq, Repr

/-- The four flags of a PublicAccessBlockConfiguration, each read with
.get(..., False). -/
structure PabConfig where
  BlockPublicAcls : Bool
  IgnorePublicAcls : Bool
  BlockPublicPolicy : Bool
  RestrictPublicBuckets : Bool
deriving DecidableEq, Repr

/-- One bucket of a list_buckets response together with the outcomes of the
two per-bucket calls: encryption check and public-access-block check (the
latter catches every exception at lines 187-188, hence Option). -/
structure S3Bucket where
  Name : String
  encResult : S3EncResult
  pabResult : Option PabConfig
deriving DecidableEq, Repr

/-- Findings an individual bucket contributes, in emission order (encryption
check first, lines 142-159, then public access, lines 161-188). -/
inductive S3Issue where
  | notEncrypted
  | publicAccess
deriving DecidableEq, Repr

/-- The per-bucket issue list of scan_s3_buckets; a ClientError whose code is
not ServerSideEncryptionConfigurationNotFoundError produces no finding, and a
failed public-access call is skipped with a warning. -/
def s3BucketIssues (b : S3Bucket) : List S3Issue :=
  (match b.encResult with
   | S3EncResult.clientErr code =>
     if code = "ServerSideEncryptionConfigurationNotFoundError" then [S3Issue.notEncrypted] else []
   | _ => []) ++
  (match b.pabResult with
   | some cfg =>
     if cfg.BlockPublicAcls ∧ cfg.IgnorePublicAcls ∧ cfg.BlockPublicPolicy ∧ cfg.RestrictPublicBuckets
     then [] else [S3Issue.publicAccess]
   | none => [])

/-- Monadic collection of the bucket loop: a fatal (non-ClientError) exception
from the encryption check escapes to the outer try/except of the method. -/
def s3HitsE (buckets : List S3Bucket) : Except PyError (List (S3Bucket × S3Issue)) :=
  buckets.foldlM (fun acc b =>
    match b.encResult with
    | S3EncResult.fatal e => Except.error e
    | _ => Except.ok (acc ++ (s3BucketIssues b).map fun i => (b, i))) []

/-- Vulnerability constructed at aws_scanner.py lines 146-158 or 172-184. -/
def mkS3Vuln (ctx : ScanCtx) (k : Nat) (h : S3Bucket × S3Issue) : Vulnerability :=
  match h.2 with
  | S3Issue.notEncrypted =>
    { id := ctx.uuidGen k
      title := "S3 Bucket " ++ h.1.Name ++ " is not encrypted"
      description := "S3 Bucket " ++ h.1.Name ++ " does not have default encryption enabled."
      resource_id := h.1.Name
      resource_type := "S3Bucket"
      cloud_provider := CloudProvider.AWS
      region := ctx.region
      severity := SeverityLevel.HIGH
      status := VulnerabilityStatus.OPEN
      remediation_steps := "Enable default encryption on the S3 bucket using either SSE-S3 or SSE-KMS."
      detected_at := ctx.now }
  | S3Issue.publicAccess =>
    { id := ctx.uuidGen k
      title := "S3 Bucket " ++ h.1.Name ++ " has public access enabled"
      description := "S3 Bucket " ++ h.1.Name ++ " does not have all public access block settings enabled."
      resource_id := h.1.Name
      resource_type := "S3Bucket"
      cloud_provider := CloudProvider.AWS
      region := ctx.region
      severity := SeverityLevel.HIGH
      status := VulnerabilityStatus.OPEN
      remediation_steps := "Enable all public access block settings for the S3 bucket."
      detected_at := ctx.now }

/-- AWSScanner.scan_s3_buckets; the outer try/except (lines 193-195) converts
any escaped exception into the empty result. -/
def scan_s3_buckets (ctx : ScanCtx)
    (resp : Except PyError (List S3Bucket)) : List Vulnerability :=
  match (do
      let buckets ← resp
      s3HitsE buckets) with
  | Except.error _ => []
  | Except.ok hits => (enumFromN 0 hits).map fun q => mkS3Vuln ctx q.1 q.2

/-! ### AWS IAM policies (aws_scanner.py, scan_iam_policies) -/

/-- Value of the Action or Resource key of a policy statement: a scalar
string, a list, or anything else (including an absent key), exactly the three
cases distinguished at lines 231-232. -/
inductive PolicyValue where
  | str (s : String)
  | list (l : List String)
  | absent
deriving DecidableEq, Repr

/-- Python test action == asterisk or (isinstance(action, list) and asterisk
in action), lines 231-232. -/
def hasStar : PolicyValue → Bool
  | PolicyValue.str s => s == "*"
  | PolicyValue.list l => l.contains "*"
  | PolicyValue.absent => false

/-- A policy statement that is a dict, with Effect/Action/Resource read via
.get. -/
structure IamStatement where
  Effect : Option String
  Action : PolicyValue
  Resource : PolicyValue
deriving DecidableEq, Repr

/-- One element of a Statement list: the isinstance(statement, dict) test at
line 226 skips non-dict elements. -/
inductive StatementItem where
  | dict (s : IamStatement)
  | nondict
deriving DecidableEq, Repr

/-- The overly-permissive test of aws_scanner.py lines 231-232. -/
def overlyPermissive (s : IamStatement) : Bool :=
  s.Effect == some "Allow" && hasStar s.Action && hasStar s.Resource

/-- One local policy: list_policies metadata plus the Statement list obtained
from get_policy_version, a call that may itself raise. -/
structure IamPolicy where
  PolicyId : String
  PolicyName : String
  statements : Except PyError (List StatementItem)

/-- Flagged statement selection inside one policy document. -/
def matchingStatement : StatementItem → Option IamStatement
  | StatementItem.dict s => if overlyPermissive s then some s else none
  | StatementItem.nondict => none

/-- One iteration of the policy loop of scan_iam_policies: a
get_policy_version failure escapes to the outer try/except of the whole
method. -/
def iamStep (acc : List (IamPolicy × IamStatement)) (p : IamPolicy) :
    Except PyError (List (IamPolicy × IamStatement)) := do
  let sts ← p.statements
  Except.ok (acc ++ (sts.filterMap matchingStatement).map fun s => (p, s))

/-- Policy loop of scan_iam_policies. -/
def iamHitsE (ps : List IamPolicy) : Except PyError (List (IamPolicy × IamStatement)) :=
  ps.foldlM iamStep []

/-- A policy whose get_policy_version call succeeded, built from plain data
(id, name, statement list). -/
def mkPurePolicy (t : String × String × List StatementItem) : IamPolicy :=
  { PolicyId := t.1, PolicyName := t.2.1, statements := Except.ok t.2.2 }

/-- Vulnerability constructed at aws_scanner.py lines 234-247. -/
def mkIamVuln (ctx : ScanCtx) (k : Nat) (h : IamPolicy × IamStatement) : Vulnerability :=
  { id := ctx.uuidGen k
    title := "IAM Policy " ++ h.1.PolicyName ++ " has overly permissive permissions"
    description := "IAM Policy " ++ h.1.PolicyName ++ " (" ++ h.1.PolicyId ++
      ") allows all actions (*) on all resources (*)."
    resource_id := h.1.PolicyId
    resource_type := "IAMPolicy"
    cloud_provider := CloudProvider.AWS
    region := "global"
    severity := SeverityLevel.CRITICAL
    status := VulnerabilityStatus.OPEN
    remediation_steps := "Revise the IAM policy to follow the principle of least privilege. Specify only the actions and resources that are necessary."
    detected_at := ctx.now }

/-- AWSScanner.scan_iam_policies; exceptions yield the empty result (lines
253-255). -/
def scan_iam_policies (ctx : ScanCtx)
    (resp : Except PyError (List IamPolicy)) : List Vulnerability :=
  match (do
      let ps ← resp
      iamHitsE ps) with
  | Except.error _ => []
  | Except.ok hits => (enumFromN 0 hits).map fun q => mkIamVuln ctx q.1 q.2

/-! ### AWS Security Hub (aws_scanner.py, fetch_security_hub_findings) -/

/-- One entry of a Security Hub Resources list. -/
structure SHResource where
  Id : Option String
  rtype : Option String
deriving DecidableEq, Repr

/-- One Security Hub finding; severityLabel models
finding.get(Severity, dict()).get(Label, LOW) before the default is applied. -/
structure SHFinding where
  Title : Option String
  Description : Option String
  severityLabel : Option String
  Region : Option String
  remediationText : Option String
  Resources : List SHResource
deriving DecidableEq, Repr

/-- The severity mapping dict of aws_scanner.py lines 292-300 together with
its .get default SeverityLevel.LOW. -/
def securityHubSeverity (label : String) : SeverityLevel :=
  if label = "CRITICAL" then SeverityLevel.CRITICAL
  else if label = "HIGH" then SeverityLevel.HIGH
  else if label = "MEDIUM" then SeverityLevel.MEDIUM
  else if label = "LOW" then SeverityLevel.LOW
  else if label = "INFORMATIONAL" then SeverityLevel.INFO
  else SeverityLevel.LOW

/-- Vulnerability constructed at aws_scanner.py lines 302-314. -/
def mkShVuln (ctx : ScanCtx) (k : Nat) (f : SHFinding) : Vulnerability :=
  { id := ctx.uuidGen k
    title := f.Title.getD "Security Hub Finding"
    description := f.Description.getD "No description provided"
    resource_id := (match f.Resources with | [] => "Unknown" | r :: _ => r.Id.getD "Unknown")
    resource_type := (match f.Resources with | [] => "Unknown" | r :: _ => r.rtype.getD "Unknown")
    cloud_provider := CloudProvider.AWS
    region := f.Region.getD ctx.region
    severity := securityHubSeverity (f.severityLabel.getD "LOW")
    status := VulnerabilityStatus.OPEN
    remediation_steps := f.remediationText.getD "See AWS Security Hub for remediation steps."
    detected_at := ctx.now }

/-- AWSScanner.fetch_security_hub_findings: the probe call (lines 269-273, any
failure returns empty) and the filtered get_findings call (a failure reaches
the outer handler, lines 320-322, and also returns empty). -/
def fetch_security_hub_findings (ctx : ScanCtx)
    (probe : Except PyError Unit)
    (resp : Except PyError (List SHFinding)) : List Vulnerability :=
  match probe with
  | Except.error _ => []
  | Except.ok _ =>
    match resp with
    | Except.error _ => []
    | Except.ok fs => (enumFromN 0 fs).map fun q => mkShVuln ctx q.1 q.2

/-! ### AWS GuardDuty (aws_scanner.py, fetch_guardduty_findings) -/

/-- One GuardDuty finding with its flattened Resource details; severity models
finding.get(Severity, 0). -/
structure GDFinding where
  severity : Option ℚ
  Title : Option String
  Description : Option String
  ResourceType : Option String
  InstanceId : Option String
  AccessKeyId : Option String
  S3Name : Option String
deriving DecidableEq, Repr

/-- One detector id together with the outcome of its list_findings plus
get_findings calls (either raises to the outer handler). -/
structure GDDetector where
  DetectorId : String
  findings : Except PyError (List GDFinding)

/-- The numeric severity thresholds of aws_scanner.py lines 373-382. -/
def guarddutySeverity (s : ℚ) : SeverityLevel :=
  if s ≥ 7 then SeverityLevel.CRITICAL
  else if s ≥ 5 then SeverityLevel.HIGH
  else if s ≥ 3 then SeverityLevel.MEDIUM
  else if s ≥ 1 then SeverityLevel.LOW
  else SeverityLevel.INFO

/-- Resource-id extraction of aws_scanner.py lines 384-395. -/
def gdResourceId (f : GDFinding) : String :=
  let rt := f.ResourceType.getD "Unknown"
  if rt = "Instance" then f.InstanceId.getD "Unknown"
  else if rt = "AccessKey" then f.AccessKeyId.getD "Unknown"
  else if rt = "S3Bucket" then f.S3Name.getD "Unknown"
  else "Unknown"

/-- Vulnerability constructed at aws_scanner.py lines 397-410. -/
def mkGdVuln (ctx : ScanCtx) (k : Nat) (f : GDFinding) : Vulnerability :=
  { id := ctx.uuidGen k
    title := f.Title.getD "GuardDuty Finding"
    description := f.Description.getD "No description provided"
    resource_id := gdResourceId f
    resource_type := f.ResourceType.getD "Unknown"
    cloud_provider := CloudProvider.AWS
    region := ctx.region
    severity := guarddutySeverity (f.severity.getD 0)
    status := VulnerabilityStatus.OPEN
    cvss_score := some (f.severity.getD 0)
    remediation_steps := "Review the GuardDuty finding details and follow AWS recommended steps."
    detected_at := ctx.now }

/-- AWSScanner.fetch_guardduty_findings: list_detectors may fail (empty
result), and any per-detector fetch failure reaches the outer handler (lines
416-418), also yielding the empty result. -/
def fetch_guardduty_findings (ctx : ScanCtx)
    (detResp : Except PyError (List GDDetector)) : List Vulnerability :=
  match (do
      let dets ← detResp
      dets.foldlM (fun (acc : List GDFinding) (d : GDDetector) => do
        let fs ← d.findings
        Except.ok (acc ++ fs)) ([] : List GDFinding)) with
  | Except.error _ => []
  | Except.ok fs => (enumFromN 0 fs).map fun q => mkGdVuln ctx q.1 q.2

/-- AWSScanner.scan_all (aws_scanner.py lines 49-68): plain concatenation of
the five group results; the returned value is a bare finding list. -/
def aws_scan_all (ctx : ScanCtx)
    (sgResp : Except PyError (List SecurityGroup))
    (s3Resp : Except PyError (List S3Bucket))
    (iamResp : Except PyError (List IamPolicy))
    (shProbe : Except PyError Unit)
    (shResp : Except PyError (List SHFinding))
    (gdResp : Except PyError (List GDDetector)) : List Vulnerability :=
  scan_security_groups ctx sgResp ++
  scan_s3_buckets ctx s3Resp ++
  scan_iam_policies ctx iamResp ++
  fetch_security_hub_findings ctx shProbe shResp ++
  fetch_guardduty_findings ctx gdResp

/-! ### Azure network security groups (azure_scanner.py,
scan_network_security_groups) -/

/-- One NSG security rule; source_address models the SDK attribute
source_address_prefix and destination_port_range may be absent (None). -/
structure NsgRule where
  name : String
  access : String
  direction : String
  source_address : Option String
  destination_port_range : Option String
deriving DecidableEq, Repr

/-- One network security group of a list_all response. -/
structure Nsg where
  id : String
  name : String
  location : String
  security_rules : List NsgRule
deriving DecidableEq, Repr

/-- The rule filter of azure_scanner.py lines 96-98: inbound Allow rules whose
source is * or Internet. -/
def nsgRuleFlagged (r : NsgRule) : Bool :=
  r.access == "Allow" && r.direction == "Inbound" &&
  (r.source_address == some "*" || r.source_address == some "Internet")

/-- Port strings treated as critical at azure_scanner.py line 104. -/
def criticalPortStrings : List String := ["22", "3389", "1433", "3306", "5432", "*"]

/-- Python int(x) applied to both halves of port_range.split(chr 45) followed
by the two-element tuple unpacking of line 109; any failure is the ValueError
caught at line 113. -/
def parsePortRangePair (pr : String) : Option (Int × Int) :=
  match (pySplit pr '-').map pyToInt with
  | [some a, some b] => some (a, b)
  | _ => none

/-- The is_critical computation of azure_scanner.py lines 101-114 for a
present destination_port_range string. -/
def nsgRuleIsCritical (pr : String) : Bool :=
  if pr ∈ criticalPortStrings then true
  else if pyContains pr '-' then
    match parsePortRangePair pr with
    | some (s, e) => (decide (22 ≥ s) && decide (22 ≤ e)) || (decide (3389 ≥ s) && decide (3389 ≤ e))
    | none => false
  else false

/-- Severity assigned at azure_scanner.py line 116. -/
def azureNsgRuleSeverity (pr : String) : SeverityLevel :=
  if nsgRuleIsCritical pr then SeverityLevel.CRITICAL else SeverityLevel.HIGH

/-- Per-rule criticality in the Except monad: on a rule whose
destination_port_range is None, the membership test at line 104 is False and
the expression chr(45) in port_range at line 106 raises TypeError. -/
def nsgRuleCriticalE : Option String → Except PyError Bool
  | some pr => Except.ok (nsgRuleIsCritical pr)
  | none => Except.error PyError.typeError

/-- One iteration of the rule loop of scan_network_security_groups (lines
94-135, restricted to flag computation). -/
def nsgRuleStep (acc : List (NsgRule × Bool)) (r : NsgRule) :
    Except PyError (List (NsgRule × Bool)) :=
  if nsgRuleFlagged r then do
    let crit ← nsgRuleCriticalE r.destination_port_range
    Except.ok (acc ++ [(r, crit)])
  else Except.ok acc

/-- Rule loop of one NSG, including the resource-group extraction
nsg.id.split(chr 47)[4] of line 90 which can raise IndexError. -/
def nsgHitsE (nsg : Nsg) : Except PyError (List (NsgRule × Bool)) := do
  let _rg ← pyIndex (pySplit nsg.id '/') 4
  nsg.security_rules.foldlM nsgRuleStep []

/-- One iteration of the NSG loop of scan_network_security_groups. -/
def nsgGroupStep (acc : List (Nsg × NsgRule × Bool)) (nsg : Nsg) :
    Except PyError (List (Nsg × NsgRule × Bool)) := do
  let hits ← nsgHitsE nsg
  Except.ok (acc ++ hits.map fun h => (nsg, h.1, h.2))

/-- NSG loop of scan_network_security_groups. -/
def azureNsgHitsE (nsgs : List Nsg) : Except PyError (List (Nsg × NsgRule × Bool)) :=
  nsgs.foldlM nsgGroupStep []

/-- Vulnerability constructed at azure_scanner.py lines 118-133. -/
def mkNsgVuln (ctx : ScanCtx) (k : Nat) (h : Nsg × NsgRule × Bool) : Vulnerability :=
  let nsg := h.1
  let r := h.2.1
  { id := ctx.uuidGen k
    title := "NSG " ++ nsg.name ++ " has overly permissive inbound rule"
    description := "Network Security Group " ++ nsg.name ++ " has an inbound rule " ++
      r.name ++ " that allows access from " ++ (r.source_address.getD "None") ++
      " to port(s) " ++ (r.destination_port_range.getD "None")
    resource_id := nsg.id
    resource_type := "NetworkSecurityGroup"
    cloud_provider := CloudProvider.AZURE
    region := nsg.location
    severity := if h.2.2 then SeverityLevel.CRITICAL else SeverityLevel.HIGH
    status := VulnerabilityStatus.OPEN
    remediation_steps := "Restrict the NSG rule to only necessary IP ranges. Avoid using * or Internet especially for administrative ports."
    detected_at := ctx.now }

/-- AzureScanner.scan_network_security_groups; any exception, including a
TypeError raised while checking one rule, reaches the single try/except of
the method (lines 140-142) and yields the empty result for the whole group. -/
def scan_network_security_groups (ctx : ScanCtx)
    (resp : Except PyError (List Nsg)) : List Vulnerability :=
  match (do
      let nsgs ← resp
      azureNsgHitsE nsgs) with
  | Except.error _ => []
  | Except.ok hits => (enumFromN 0 hits).map fun q => mkNsgVuln ctx q.1 q.2

/-! ### Azure storage accounts (azure_scanner.py, scan_storage_accounts) -/

/-- One storage account of a list response, with the encryption sub-service
flags account.encryption.services.blob.enabled and ....file.enabled
flattened. -/
structure StorageAccount where
  id : String
  name : String
  location : String
  allow_blob_public_access : Bool
  enable_https_traffic_only : Bool
  encryption_blob_enabled : Bool
  encryption_file_enabled : Bool
deriving DecidableEq, Repr

/-- The three per-account checks, in source order (lines 164-215). -/
inductive StorageIssue where
  | publicAccess
  | noHttps
  | encryptionIncomplete
deriving DecidableEq, Repr

/-- Issues one storage account contributes: public blob access (line 165),
missing secure transfer (line 183), and the single incomplete-encryption
check of line 201, which fires when blob or file encryption is disabled. -/
def storageIssues (a : StorageAccount) : List StorageIssue :=
  (if a.allow_blob_public_access then [StorageIssue.publicAccess] else []) ++
  (if a.enable_https_traffic_only then [] else [StorageIssue.noHttps]) ++
  (if a.encryption_blob_enabled && a.encryption_file_enabled then []
   else [StorageIssue.encryptionIncomplete])

/-- Account loop with the resource-group extraction account.id.split(chr
47)[4] of line 161, which can raise IndexError to the method handler. -/
def storageHitsE (accounts : List StorageAccount) :
    Except PyError (List (StorageAccount × StorageIssue)) :=
  accounts.foldlM (fun (acc : List (StorageAccount × StorageIssue)) (a : StorageAccount) => do
    let _rg ← pyIndex (pySplit a.id '/') 4
    Except.ok (acc ++ (storageIssues a).map fun i => (a, i))) []

/-- Vulnerability constructed at azure_scanner.py lines 166-179, 184-197 or
202-214, depending on the issue kind. -/
def mkStorageVuln (ctx : ScanCtx) (k : Nat) (h : StorageAccount × StorageIssue) : Vulnerability :=
  let a := h.1
  match h.2 with
  | StorageIssue.publicAccess =>
    { id := ctx.uuidGen k
      title := "Storage Account " ++ a.name ++ " allows public blob access"
      description := "Storage Account " ++ a.name ++ " has public blob access enabled, which may expose data if containers are configured with public access."
      resource_id := a.id
      resource_type := "StorageAccount"
      cloud_provider := CloudProvider.AZURE
      region := a.location
      severity := SeverityLevel.HIGH
      status := VulnerabilityStatus.OPEN
      remediation_steps := "Disable public blob access for the storage account unless absolutely necessary."
      detected_at := ctx.now }
  | StorageIssue.noHttps =>
    { id := ctx.uuidGen k
      title := "Storage Account " ++ a.name ++ " allows non-HTTPS traffic"
      description := "Storage Account " ++ a.name ++ " does not enforce secure transfer (HTTPS only), which may expose data in transit."
      resource_id := a.id
      resource_type := "StorageAccount"
      cloud_provider := CloudProvider.AZURE
      region := a.location
      severity := SeverityLevel.HIGH
      status := VulnerabilityStatus.OPEN
      remediation_steps := "Enable secure transfer required for the storage account."
      detected_at := ctx.now }
  | StorageIssue.encryptionIncomplete =>
    { id := ctx.uuidGen k
      title := "Storage Account " ++ a.name ++ " has incomplete encryption"
      description := "Storage Account " ++ a.name ++ " does not have encryption enabled for all services."
      resource_id := a.id
      resource_type := "StorageAccount"
      cloud_provider := CloudProvider.AZURE
      region := a.location
      severity := SeverityLevel.MEDIUM
      status := VulnerabilityStatus.OPEN
      remediation_steps := "Enable encryption for all services in the storage account."
      detected_at := ctx.now }

/-- AzureScanner.scan_storage_accounts; any exception reaches the method
handler (lines 220-222) and yields the empty result. -/
def scan_storage_accounts (ctx : ScanCtx)
    (resp : Except PyError (List StorageAccount)) : List Vulnerability :=
  match (do
      let accounts ← resp
      storageHitsE accounts) with
  | Except.error _ => []
  | Except.ok hits => (enumFromN 0 hits).map fun q => mkStorageVuln ctx q.1 q.2

/-! ### Azure Security Center (azure_scanner.py,
fetch_security_center_recommendations) -/

/-- One Security Center assessment; statusSeverity is the attribute
assessment.status.severity and resourceDetailsId is present only when the
hasattr test of line 253 succeeds. -/
structure ScAssessment where
  statusCode : String
  statusSeverity : Option String
  displayName : String
  metaDescription : Option String
  metaRemediation : Option String
  resourceDetailsId : Option String
deriving DecidableEq, Repr

/-- The severity mapping dict of azure_scanner.py lines 244-250 together with
its .get default SeverityLevel.MEDIUM; a missing severity attribute (none)
also takes the default. -/
def securityCenterSeverity : Option String → SeverityLevel
  | some s =>
    if s = "High" then SeverityLevel.HIGH
    else if s = "Medium" then SeverityLevel.MEDIUM
    else if s = "Low" then SeverityLevel.LOW
    else SeverityLevel.MEDIUM
  | none => SeverityLevel.MEDIUM

/-- Resource-type extraction of line 254: the next-to-last segment of the id
when it contains a slash, else Unknown.  When the id contains a slash the
split has at least two parts, so the negative index -2 cannot fail. -/
def scResourceType (rid : String) : String :=
  if pyContains rid '/' then
    let parts := pySplit rid '/'
    parts.getD (parts.length - 2) ""
  else "Unknown"

/-- Vulnerability constructed at azure_scanner.py lines 264-276; locOf models
the get_by_id location lookup of lines 257-262, whose failure leaves the
location unknown. -/
def mkScVuln (ctx : ScanCtx) (locOf : String → Option String) (k : Nat)
    (a : ScAssessment) : Vulnerability :=
  let rid := a.resourceDetailsId.getD "Unknown"
  { id := ctx.uuidGen k
    title := a.displayName
    description := a.metaDescription.getD "No description provided"
    resource_id := rid
    resource_type := scResourceType rid
    cloud_provider := CloudProvider.AZURE
    region := (locOf rid).getD "unknown"
    severity := securityCenterSeverity a.statusSeverity
    status := VulnerabilityStatus.OPEN
    remediation_steps := a.metaRemediation.getD "See Azure Security Center for remediation steps."
    detected_at := ctx.now }

/-- AzureScanner.fetch_security_center_recommendations: Healthy assessments
are skipped (lines 240-241); an assessments.list failure yields the empty
result (lines 282-284). -/
def fetch_security_center_recommendations (ctx : ScanCtx)
    (locOf : String → Option String)
    (resp : Except PyError (List ScAssessment)) : List Vulnerability :=
  match resp with
  | Except.error _ => []
  | Except.ok assessments =>
    (enumFromN 0 (assessments.filter fun a => a.statusCode ≠ "Healthy")).map
      fun q => mkScVuln ctx locOf q.1 q.2

/-! ### Azure role assignments (azure_scanner.py, scan_role_assignments) -/

/-- One role definition of a role_definitions.list response. -/
structure RoleDefinition where
  role_name : String
  id : String
deriving DecidableEq, Repr

/-- One role assignment of a role_assignments.list_for_subscription
response. -/
structure RoleAssignment where
  id : String
  role_definition_id : String
  principal_id : String
deriving DecidableEq, Repr

/-- The id-search loop of azure_scanner.py lines 309-313: later matches
overwrite earlier ones. -/
def findRoleIds (rds : List RoleDefinition) : Option String × Option String :=
  rds.foldl (fun acc rd =>
    if rd.role_name == "Owner" then (some rd.id, acc.2)
    else if rd.role_name == "Contributor" then (acc.1, some rd.id)
    else acc) (none, none)

/-- Python falsiness of an optional string (the test of line 315 treats both
None and the empty string as missing). -/
def pyFalsy : Option String → Bool
  | none => true
  | some s => s.isEmpty

/-- The owner-assignment pairs (assignment.id, principal_id) collected at
lines 326-331. -/
def ownerPairs (ras : List RoleAssignment) (ownerId : String) : List (String × String) :=
  (ras.filter fun a => a.role_definition_id == ownerId).map fun a => (a.id, a.principal_id)

/-- The two finding shapes of scan_role_assignments. -/
inductive RoleHit where
  | accountLevel (count : Nat)
  | servicePrincipal (assignmentId principalId : String)
deriving DecidableEq, Repr

/-- Vulnerability constructed at azure_scanner.py lines 337-351 (account
level) or 360-374 (service principal). -/
def mkRoleVuln (ctx : ScanCtx) (subscriptionId : String) (k : Nat) (h : RoleHit) : Vulnerability :=
  match h with
  | RoleHit.accountLevel count =>
    { id := ctx.uuidGen k
      title := "Excessive number of Owner role assignments"
      description := "There are " ++ toString count ++ " Owner role assignments in the subscription. Having too many owners increases the risk surface area."
      resource_id := "/subscriptions/" ++ subscriptionId
      resource_type := "Subscription"
      cloud_provider := CloudProvider.AZURE
      region := "global"
      severity := SeverityLevel.HIGH
      status := VulnerabilityStatus.OPEN
      remediation_steps := "Review Owner role assignments and reduce to minimum necessary. Consider using more granular RBAC roles instead."
      detected_at := ctx.now }
  | RoleHit.servicePrincipal aid pid =>
    { id := ctx.uuidGen k
      title := "Service Principal with Owner role"
      description := "A service principal (ID: " ++ pid ++ ") has Owner role, which grants full access to manage all resources."
      resource_id := aid
      resource_type := "RoleAssignment"
      cloud_provider := CloudProvider.AZURE
      region := "global"
      severity := SeverityLevel.HIGH
      status := VulnerabilityStatus.OPEN
      remediation_steps := "Review if the service principal truly needs Owner permissions. Consider using a more restrictive role."
      detected_at := ctx.now }

/-- Hit list of scan_role_assignments for a resolved owner role id: one
account-level hit when more than 3 owner assignments exist (line 336), plus
one hit per owner assignment whose principal id has the 36-character UUID
shape (line 359). -/
def roleHits (ras : List RoleAssignment) (ownerId : String) : List RoleHit :=
  let owned := ownerPairs ras ownerId
  (if owned.length > 3 then [RoleHit.accountLevel owned.length] else []) ++
  owned.filterMap fun p =>
    if p.2.length == 36 then some (RoleHit.servicePrincipal p.1 p.2) else none

/-- AzureScanner.scan_role_assignments: failures of either list call reach
the method handler (lines 382-384); a missing Owner or Contributor role id
aborts with an empty result (lines 315-317). -/
def scan_role_assignments (ctx : ScanCtx) (subscriptionId : String)
    (rdResp : Except PyError (List RoleDefinition))
    (raResp : Except PyError (List RoleAssignment)) : List Vulnerability :=
  match (do
      let rds ← rdResp
      let ras ← raResp
      Except.ok (rds, ras) : Except PyError (List RoleDefinition × List RoleAssignment)) with
  | Except.error _ => []
  | Except.ok (rds, ras) =>
    let ids := findRoleIds rds
    if pyFalsy ids.1 || pyFalsy ids.2 then []
    else
      match ids.1 with
      | some ownerId =>
        (enumFromN 0 (roleHits ras ownerId)).map fun q => mkRoleVuln ctx subscriptionId q.1 q.2
      | none => []

/-- AzureScanner.scan_all (azure_scanner.py lines 53-71): plain concatenation
of the four group results. -/
def azure_scan_all (ctx : ScanCtx) (subscriptionId : String)
    (nsgResp : Except PyError (List Nsg))
    (saResp : Except PyError (List StorageAccount))
    (locOf : String → Option String)
    (scResp : Except PyError (List ScAssessment))
    (rdResp : Except PyError (List RoleDefinition))
    (raResp : Except PyError (List RoleAssignment)) : List Vulnerability :=
  scan_network_security_groups ctx nsgResp ++
  scan_storage_accounts ctx saResp ++
  fetch_security_center_recommendations ctx locOf scResp ++
  scan_role_assignments ctx subscriptionId rdResp raResp

/-! ### Compliance aggregation (compliance_routes.py) -/

/-- One ComplianceFinding row joined (by vulnerability_id) with the provider
of its parent Vulnerability, which is what the cloud_provider filter of the
routes consults. -/
structure ComplianceFindingR where
  id : String
  standard : String
  control_id : String
  is_compliant : Bool
  cloud_provider : CloudProvider
deriving DecidableEq, Repr

/-- Optional cloud-provider filter applied by joining with Vulnerability
(compliance_routes.py lines 213-216). -/
def filterByProvider (prov : Option CloudProvider) (fs : List ComplianceFindingR) :
    List ComplianceFindingR :=
  match prov with
  | none => fs
  | some p => fs.filter fun f => f.cloud_provider = p

/-- Rounding to two decimal places, modelling the Python round(x, 2) of the
routes over exact rationals. -/
def round2 (q : ℚ) : ℚ := (round (q * 100) : ℤ) / 100

/-- The guarded percentage computation compliant / total * 100 if total > 0
else 0 (compliance_routes.py lines 242 and 253). -/
def compliancePercentage (compliant total : Nat) : ℚ :=
  if 0 < total then round2 ((compliant : ℚ) / (total : ℚ) * 100) else 0

/-- One row of the per-standard summary. -/
structure StandardSummaryR where
  standard : String
  total_controls : Nat
  compliant_controls : Nat
  compliance_percentage : ℚ
deriving DecidableEq, Repr

/-- The overall block of a summary response. -/
structure OverallSummaryR where
  total_controls : Nat
  compliant_controls : Nat
  compliance_percentage : ℚ
deriving DecidableEq, Repr

/-- Distinct group keys in order of first appearance, modelling the SQL GROUP
BY key set. -/
def groupKeys : List String → List String
  | [] => []
  | a :: l => a :: groupKeys (l.filter fun b => b ≠ a)
termination_by l => l.length
decreasing_by
  exact Nat.lt_succ_of_le (List.length_filter_le _ _)

/-- COUNT(id) over the rows of one standard. -/
def groupTotal (fs : List ComplianceFindingR) (std : String) : Nat :=
  (fs.filter fun f => f.standard = std).length

/-- SUM(CAST(is_compliant AS INTEGER)) over the rows of one standard. -/
def groupCompliant (fs : List ComplianceFindingR) (std : String) : Nat :=
  (fs.filter fun f => f.standard = std ∧ f.is_compliant).length

/-- The aggregation the summary query of compliance_routes.py lines 224-262
describes, as a pure function of the (already filtered) finding rows. -/
def complianceSummaryCore (fs : List ComplianceFindingR) :
    List StandardSummaryR × OverallSummaryR :=
  let summary := (groupKeys (fs.map fun f => f.standard)).map fun std =>
    { standard := std
      total_controls := groupTotal fs std
      compliant_controls := groupCompliant fs std
      compliance_percentage := compliancePercentage (groupCompliant fs std) (groupTotal fs std) }
  let ot := (summary.map fun s => s.total_controls).sum
  let oc := (summary.map fun s => s.compliant_controls).sum
  (summary, { total_controls := ot, compliant_controls := oc,
              compliance_percentage := compliancePercentage oc ot })

/-- Attribute lookup db.Integer performed at compliance_routes.py line 227
(and again at line 284) while building the aggregation query: db is a
sqlalchemy Session, whose class defines no attribute named Integer, so the
lookup raises AttributeError before the query ever runs. -/
def sessionIntegerAttr : Except PyError Unit := Except.error PyError.attributeError

/-- The route get_compliance_summary: everything inside its try block,
including the db.Integer lookup; except Exception converts any exception
into an HTTP 500 response (lines 264-268).  The result is either the HTTP
error status code or the summary payload. -/
def get_compliance_summary (prov : Option CloudProvider) (fs : List ComplianceFindingR) :
    Except Nat (List StandardSummaryR × OverallSummaryR) :=
  match (do
      let fs' := filterByProvider prov fs
      let _ ← sessionIntegerAttr
      Except.ok (complianceSummaryCore fs') :
      Except PyError (List StandardSummaryR × OverallSummaryR)) with
  | Except.ok r => Except.ok r
  | Except.error _ => Except.error 500

/-- Per-control aggregation of get_standard_summary (compliance_routes.py
lines 280-326), grouped by control_id within one standard. -/
def standardSummaryCore (std : String) (fs : List ComplianceFindingR) :
    List StandardSummaryR × OverallSummaryR :=
  let rows := fs.filter fun f => f.standard = std
  let summary := (groupKeys (rows.map fun f => f.control_id)).map fun cid =>
    let total := (rows.filter fun f => f.control_id = cid).length
    let compliant := (rows.filter fun f => f.control_id = cid ∧ f.is_compliant).length
    { standard := cid
      total_controls := total
      compliant_controls := compliant
      compliance_percentage := compliancePercentage compliant total : StandardSummaryR }
  let ot := (summary.map fun s => s.total_controls).sum
  let oc := (summary.map fun s => s.compliant_controls).sum
  (summary, { total_controls := ot, compliant_controls := oc,
              compliance_percentage := compliancePercentage oc ot })

/-- The route get_standard_summary, which evaluates the same db.Integer
expression at line 284 and therefore also raises AttributeError, converted to
HTTP 500 at lines 328-332. -/
def get_standard_summary (std : String) (prov : Option CloudProvider)
    (fs : List ComplianceFindingR) :
    Except Nat (List StandardSummaryR × OverallSummaryR) :=
  match (do
      let fs' := filterByProvider prov fs
      let _ ← sessionIntegerAttr
      Except.ok (standardSummaryCore std fs') :
      Except PyError (List StandardSummaryR × OverallSummaryR)) with
  | Except.ok r => Except.ok r
  | Except.error _ => Except.error 500

/-- Discriminator for the account-level finding shape of
scan_role_assignments. -/
def isAccountHit : RoleHit → Bool
  | RoleHit.accountLevel _ => true
  | RoleHit.servicePrincipal _ _ => false

/-- Discriminator for the per-service-principal finding shape of
scan_role_assignments. -/
def isSpHit : RoleHit → Bool
  | RoleHit.accountLevel _ => false
  | RoleHit.servicePrincipal _ _ => true

/-! ### Spec-side definitions, for comparison with the embedded code -/

/-- Definition following the words of claim C1 rather than the source: the
destination port set FromPort..ToPort of a permission intersects the
administrative-port set. -/
def specAdminIntersect (p : IpPermission) : Bool :=
  match p.FromPort, p.ToPort with
  | some a, some b => adminPorts.any fun q => decide (a ≤ q) && decide (q ≤ b)
  | _, _ => false

/-- Definition following the words of claim C10: every finding of a batch is
OPEN, carries the creation timestamp, and the ids are exactly the successive
outputs of the uuid generator (hence mutually fresh when the generator is
injective). -/
def freshOpenBatch (ctx : ScanCtx) (out : List Vulnerability) : Prop :=
  (∀ v ∈ out, v.status = VulnerabilityStatus.OPEN ∧ v.detected_at = ctx.now) ∧
  out.map (fun v => v.id) = (List.range out.length).map ctx.uuidGen

/-! ### General lemmas about the emission scheme -/

theorem mem_enumFromN_map {β : Type} {g : Nat × β → Vulnerability} {l : List β}
    {n : Nat} {v : Vulnerability} (h : v ∈ (enumFromN n l).map g) :
    ∃ k b, b ∈ l ∧ v = g (k, b) := by
  rcases List.mem_map.1 h with ⟨⟨k, b⟩, hp, rfl⟩
  exact ⟨k, b, mem_enumFromN hp, rfl⟩

theorem length_filter_enumFromN_map {β : Type} (g : Nat × β → Vulnerability)
    (pred : Vulnerability → Bool) (q : β → Bool)
    (hq : ∀ k b, pred (g (k, b)) = q b) (n : Nat) (l : List β) :
    (((enumFromN n l).map g).filter pred).length = (l.filter q).length := by
  induction l generalizing n with
  | nil => rfl
  | cons a l ih =>
    simp only [enumFromN, List.map_cons, List.filter_cons, hq n a]
    cases hqa : q a <;> simp [ih (n + 1)]

theorem map_id_enumFromN_map {β : Type} (g : Nat × β → Vulnerability)
    (gen : Nat → String) (hid : ∀ k b, (g (k, b)).id = gen k) (n : Nat) (l : List β) :
    ((enumFromN n l).map g).map (fun v => v.id) = (List.range' n l.length).map gen := by
  induction l generalizing n with
  | nil => rfl
  | cons a l ih => simp [enumFromN, List.range', hid n a, ih (n + 1)]

theorem freshOpenBatch_nil (ctx : ScanCtx) : freshOpenBatch ctx [] := by
  constructor
  · intro v hv; simp at hv
  · simp

theorem freshOpenBatch_enum {β : Type} (ctx : ScanCtx) (g : Nat × β → Vulnerability)
    (hst : ∀ k b, (g (k, b)).status = VulnerabilityStatus.OPEN)
    (hdt : ∀ k b, (g (k, b)).detected_at = ctx.now)
    (hid : ∀ k b, (g (k, b)).id = ctx.uuidGen k) (l : List β) :
    freshOpenBatch ctx ((enumFromN 0 l).map g) := by
  constructor
  · intro v hv
    rcases mem_enumFromN_map hv with ⟨k, b, _, rfl⟩
    exact ⟨hst k b, hdt k b⟩
  · rw [map_id_enumFromN_map g ctx.uuidGen hid 0 l, List.length_map, enumFromN_length,
      List.range_eq_range']

/-! ### Lemmas about the NSG rule loop -/

theorem nsgRuleStep_flagged_none {acc : List (NsgRule × Bool)} {r : NsgRule}
    (h1 : nsgRuleFlagged r = true) (h2 : r.destination_port_range = none) :
    nsgRuleStep acc r = Except.error PyError.typeError := by
  unfold nsgRuleStep
  rw [if_pos h1, h2]
  rfl

theorem nsgRuleFold_error_of_mem :
    ∀ (rules : List NsgRule) (acc : List (NsgRule × Bool)),
    (∃ r ∈ rules, nsgRuleFlagged r = true ∧ r.destination_port_range = none) →
    ∃ e, rules.foldlM nsgRuleStep acc = Except.error e := by
  intro rules
  induction rules with
  | nil => intro acc h; rcases h with ⟨r, hr, _⟩; simp at hr
  | cons a l ih =>
    intro acc h
    rcases h with ⟨r, hr, hf, hn⟩
    rcases List.mem_cons.1 hr with rfl | hr
    · refine ⟨PyError.typeError, ?_⟩
      rw [List.foldlM_cons, nsgRuleStep_flagged_none hf hn]
      rfl
    · cases hstep : nsgRuleStep acc a with
      | error e =>
        refine ⟨e, ?_⟩
        rw [List.foldlM_cons, hstep]
        rfl
      | ok acc' =>
        rcases ih acc' ⟨r, hr, hf, hn⟩ with ⟨e, he⟩
        refine ⟨e, ?_⟩
        rw [List.foldlM_cons, hstep]
        exact he

theorem nsgHitsE_error_of_rule {nsg : Nsg} {r : NsgRule}
    (hr : r ∈ nsg.security_rules) (hf : nsgRuleFlagged r = true)
    (hn : r.destination_port_range = none) :
    ∃ e, nsgHitsE nsg = Except.error e := by
  unfold nsgHitsE
  cases hidx : pyIndex (pySplit nsg.id '/') 4 with
  | error e => exact ⟨e, rfl⟩
  | ok _ =>
    rcases nsgRuleFold_error_of_mem nsg.security_rules [] ⟨r, hr, hf, hn⟩ with ⟨e, he⟩
    exact ⟨e, he⟩

theorem azureNsgFold_error_of_mem :
    ∀ (nsgs : List Nsg) (acc : List (Nsg × NsgRule × Bool)),
    (∃ nsg ∈ nsgs, ∃ e, nsgHitsE nsg = Except.error e) →
    ∃ e, nsgs.foldlM nsgGroupStep acc = Except.error e := by
  intro nsgs
  induction nsgs with
  | nil => intro acc h; rcases h with ⟨nsg, hn, _⟩; simp at hn
  | cons a l ih =>
    intro acc h
    rcases h with ⟨nsg, hmem, e, he⟩
    rcases List.mem_cons.1 hmem with rfl | hmem
    · refine ⟨e, ?_⟩
      rw [List.foldlM_cons]
      have hstep : nsgGroupStep acc nsg = Except.error e := by
        unfold nsgGroupStep
        rw [he]
        rfl
      rw [hstep]
      rfl
    · cases hstep : nsgGroupStep acc a with
      | error e' => exact ⟨e', by rw [List.foldlM_cons, hstep]; rfl⟩
      | ok acc' =>
        rcases ih acc' ⟨nsg, hmem, e, he⟩ with ⟨e', he'⟩
        exact ⟨e', by rw [List.foldlM_cons, hstep]; exact he'⟩

theorem scan_nsg_empty_of_bad_rule {ctx : ScanCtx} {nsgs : List Nsg}
    (h : ∃ nsg ∈ nsgs, ∃ r ∈ nsg.security_rules,
      nsgRuleFlagged r = true ∧ r.destination_port_range = none) :
    scan_network_security_groups ctx (Except.ok nsgs) = [] := by
  rcases h with ⟨nsg, hmem, r, hr, hf, hn⟩
  rcases nsgHitsE_error_of_rule hr hf hn with ⟨e, he⟩
  rcases azureNsgFold_error_of_mem nsgs [] ⟨nsg, hmem, e, he⟩ with ⟨e', he'⟩
  unfold scan_network_security_groups azureNsgHitsE
  rw [show ((do
      let nsgs' ← Except.ok nsgs
      nsgs'.foldlM nsgGroupStep []) : Except PyError (List (Nsg × NsgRule × Bool))) =
      Except.error e' from he']

theorem nsgRuleFold_ok_mem :
    ∀ (rules : List NsgRule) (acc hits : List (NsgRule × Bool)),
    rules.foldlM nsgRuleStep acc = Except.ok hits →
    ∀ h ∈ hits, h ∈ acc ∨ (h.1 ∈ rules ∧ nsgRuleFlagged h.1 = true ∧
      ∃ pr, h.1.destination_port_range = some pr ∧ h.2 = nsgRuleIsCritical pr) := by
  intro rules
  induction rules with
  | nil =>
    intro acc hits hfold h hh
    simp only [List.foldlM_nil] at hfold
    cases hfold
    exact Or.inl hh
  | cons a l ih =>
    intro acc hits hfold h hh
    rw [List.foldlM_cons] at hfold
    cases hstep : nsgRuleStep acc a with
    | error e => rw [hstep] at hfold; exact absurd hfold (by simp [Bind.bind, Except.bind])
    | ok acc' =>
      rw [hstep] at hfold
      have hfold' : l.foldlM nsgRuleStep acc' = Except.ok hits := hfold
      rcases ih acc' hits hfold' h hh with hacc | hprops
      · unfold nsgRuleStep at hstep
        by_cases hf : nsgRuleFlagged a
        · rw [if_pos hf] at hstep
          cases hcrit : nsgRuleCriticalE a.destination_port_range with
          | error e => rw [hcrit] at hstep; exact absurd hstep (by simp [Bind.bind, Except.bind])
          | ok crit =>
            rw [hcrit] at hstep
            have : acc ++ [(a, crit)] = acc' := by
              have := hstep
              simp [Bind.bind, Except.bind] at this
              exact this
            subst this
            rcases List.mem_append.1 hacc with h1 | h1
            · exact Or.inl h1
            · right
              have heq : h = (a, crit) := by simpa using h1
              subst heq
              refine ⟨List.mem_cons_self _ _, hf, ?_⟩
              cases hpr : a.destination_port_range with
              | none => rw [hpr] at hcrit; exact absurd hcrit (by simp [nsgRuleCriticalE])
              | some pr =>
                rw [hpr] at hcrit
                refine ⟨pr, rfl, ?_⟩
                simpa [nsgRuleCriticalE] using hcrit.symm
        · rw [if_neg hf] at hstep
          cases hstep
          exact Or.inl hacc
      · exact Or.inr ⟨List.mem_cons_of_mem _ hprops.1, hprops.2⟩

theorem nsgHitsE_ok_mem {nsg : Nsg} {hits : List (NsgRule × Bool)}
    (h : nsgHitsE nsg = Except.ok hits) :
    ∀ p ∈ hits, p.1 ∈ nsg.security_rules ∧ nsgRuleFlagged p.1 = true ∧
      ∃ pr, p.1.destination_port_range = some pr ∧ p.2 = nsgRuleIsCritical pr := by
  intro p hp
  unfold nsgHitsE at h
  cases hidx : pyIndex (pySplit nsg.id '/') 4 with
  | error e => rw [hidx] at h; exact absurd h (by simp [Bind.bind, Except.bind])
  | ok _ =>
    rw [hidx] at h
    have h' : nsg.security_rules.foldlM nsgRuleStep [] = Except.ok hits := h
    rcases nsgRuleFold_ok_mem nsg.security_rules [] hits h' p hp with hacc | hprops
    · simp at hacc
    · exact hprops

theorem azureNsgFold_ok_mem :
    ∀ (nsgs : List Nsg) (acc hits : List (Nsg × NsgRule × Bool)),
    nsgs.foldlM nsgGroupStep acc = Except.ok hits →
    ∀ t ∈ hits, t ∈ acc ∨ (t.1 ∈ nsgs ∧ (t.2.1, t.2.2) ∈
      (match nsgHitsE t.1 with | Except.ok l => l | Except.error _ => [])) := by
  intro nsgs
  induction nsgs with
  | nil =>
    intro acc hits hfold t ht
    simp only [List.foldlM_nil] at hfold
    cases hfold
    exact Or.inl ht
  | cons a l ih =>
    intro acc hits hfold t ht
    rw [List.foldlM_cons] at hfold
    cases hstep : nsgGroupStep acc a with
    | error e => rw [hstep] at hfold; exact absurd hfold (by simp [Bind.bind, Except.bind])
    | ok acc' =>
      rw [hstep] at hfold
      have hfold' : l.foldlM nsgGroupStep acc' = Except.ok hits := hfold
      rcases ih acc' hits hfold' t ht with hacc | hprops
      · unfold nsgGroupStep at hstep
        cases hh : nsgHitsE a with
        | error e => rw [hh] at hstep; exact absurd hstep (by simp [Bind.bind, Except.bind])
        | ok ahits =>
          rw [hh] at hstep
          have : acc ++ ahits.map (fun h => (a, h.1, h.2)) = acc' := by
            have := hstep
            simp [Bind.bind, Except.bind] at this
            exact this
          subst this
          rcases List.mem_append.1 hacc with h1 | h1
          · exact Or.inl h1
          · right
            rcases List.mem_map.1 h1 with ⟨q, hq, rfl⟩
            exact ⟨List.mem_cons_self _ _, by rw [hh]; simpa using hq⟩
      · exact Or.inr ⟨List.mem_cons_of_mem _ hprops.1, hprops.2⟩

theorem scan_nsg_mem {ctx : ScanCtx} {nsgs : List Nsg} {v : Vulnerability}
    (h : v ∈ scan_network_security_groups ctx (Except.ok nsgs)) :
    ∃ nsg r pr, nsg ∈ nsgs ∧ r ∈ nsg.security_rules ∧ nsgRuleFlagged r = true ∧
      r.destination_port_range = some pr ∧ v.severity = azureNsgRuleSeverity pr := by
  unfold scan_network_security_groups at h
  cases hs : azureNsgHitsE nsgs with
  | error e =>
    rw [show ((do
        let nsgs' ← Except.ok nsgs
        azureNsgHitsE nsgs') : Except PyError (List (Nsg × NsgRule × Bool))) =
        Except.error e from hs] at h
    simp at h
  | ok hits =>
    rw [show ((do
        let nsgs' ← Except.ok nsgs
        azureNsgHitsE nsgs') : Except PyError (List (Nsg × NsgRule × Bool))) =
        Except.ok hits from hs] at h
    rcases mem_enumFromN_map h with ⟨k, t, ht, rfl⟩
    rcases azureNsgFold_ok_mem nsgs [] hits hs t ht with hacc | ⟨hmem, hin⟩
    · simp at hacc
    · cases hh : nsgHitsE t.1 with
      | error e => rw [hh] at hin; simp at hin
      | ok l =>
        rw [hh] at hin
        simp only at hin
        rcases nsgHitsE_ok_mem hh (t.2.1, t.2.2) hin with ⟨hr, hf, pr, hpr, hcrit⟩
        refine ⟨t.1, t.2.1, pr, hmem, hr, hf, hpr, ?_⟩
        show (if t.2.2 then SeverityLevel.CRITICAL else SeverityLevel.HIGH) = _
        rw [hcrit]
        rfl

/-! ### Lemmas about the IAM policy loop -/

theorem iamFold_ok_concrete :
    ∀ (ps : List (String × String × List StatementItem)) (acc : List (IamPolicy × IamStatement)),
    (ps.map mkPurePolicy).foldlM iamStep acc =
    Except.ok (acc ++ ps.flatMap fun t =>
      (t.2.2.filterMap matchingStatement).map fun s => (mkPurePolicy t, s)) := by
  intro ps
  induction ps with
  | nil => intro acc; simp; rfl
  | cons t ps ih =>
    intro acc
    rw [List.map_cons, List.foldlM_cons]
    have hstep : iamStep acc (mkPurePolicy t) =
        Except.ok (acc ++ (t.2.2.filterMap matchingStatement).map fun s =>
          (mkPurePolicy t, s)) := rfl
    rw [hstep]
    show (ps.map mkPurePolicy).foldlM iamStep _ = _
    rw [ih]
    simp [List.append_assoc]

theorem iamFold_ok_mem :
    ∀ (ps : List IamPolicy) (acc hits : List (IamPolicy × IamStatement)),
    ps.foldlM iamStep acc = Except.ok hits →
    ∀ h ∈ hits, h ∈ acc ∨ overlyPermissive h.2 = true := by
  intro ps
  induction ps with
  | nil =>
    intro acc hits hfold h hh
    simp only [List.foldlM_nil] at hfold
    cases hfold
    exact Or.inl hh
  | cons p ps ih =>
    intro acc hits hfold h hh
    rw [List.foldlM_cons] at hfold
    cases hstep : iamStep acc p with
    | error e => rw [hstep] at hfold; exact absurd hfold (by simp [Bind.bind, Except.bind])
    | ok acc' =>
      rw [hstep] at hfold
      have hfold' : ps.foldlM iamStep acc' = Except.ok hits := hfold
      rcases ih acc' hits hfold' h hh with hacc | hperm
      · unfold iamStep at hstep
        cases hsts : p.statements with
        | error e => rw [hsts] at hstep; exact absurd hstep (by simp [Bind.bind, Except.bind])
        | ok sts =>
          rw [hsts] at hstep
          have : acc ++ (sts.filterMap matchingStatement).map (fun s => (p, s)) = acc' := by
            have := hstep
            simp [Bind.bind, Except.bind] at this
            exact this
          subst this
          rcases List.mem_append.1 hacc with h1 | h1
          · exact Or.inl h1
          · right
            rcases List.mem_map.1 h1 with ⟨s, hs, rfl⟩
            rcases List.mem_filterMap.1 hs with ⟨st, _, hmatch⟩
            cases st with
            | dict s' =>
              simp only [matchingStatement] at hmatch
              by_cases hop : overlyPermissive s'
              · rw [if_pos hop] at hmatch
                cases hmatch
                exact hop
              · rw [if_neg hop] at hmatch
                cases hmatch
            | nondict => simp [matchingStatement] at hmatch
      · exact Or.inr hperm

/-! ### Lemmas about the role-assignment hit list -/

theorem sp_filterMap_filter_account (l : List (String × String)) :
    ((l.filterMap fun p => if p.2.length == 36
        then some (RoleHit.servicePrincipal p.1 p.2) else none).filter isAccountHit) = [] := by
  induction l with
  | nil => rfl
  | cons p l ih =>
    rw [List.filterMap_cons]
    cases hc : (p.2.length == 36 : Bool) with
    | false => simpa using ih
    | true => simpa [isAccountHit] using ih

theorem sp_filterMap_filter_sp (l : List (String × String)) :
    ((l.filterMap fun p => if p.2.length == 36
        then some (RoleHit.servicePrincipal p.1 p.2) else none).filter isSpHit).length =
    (l.filter fun p => p.2.length == 36).length := by
  induction l with
  | nil => rfl
  | cons p l ih =>
    rw [List.filterMap_cons, List.filter_cons]
    cases hc : (p.2.length == 36 : Bool) with
    | false => simpa [hc] using ih
    | true => simpa [hc, isSpHit] using ih

theorem roleHits_filter_account (ras : List RoleAssignment) (ownerId : String) :
    ((roleHits ras ownerId).filter isAccountHit).length =
    if 3 < (ownerPairs ras ownerId).length then 1 else 0 := by
  unfold roleHits
  rw [List.filter_append, sp_filterMap_filter_account]
  by_cases hc : 3 < (ownerPairs ras ownerId).length
  · simp [hc, isAccountHit]
  · simp [hc]

theorem roleHits_filter_sp (ras : List RoleAssignment) (ownerId : String) :
    ((roleHits ras ownerId).filter isSpHit).length =
    ((ownerPairs ras ownerId).filter fun p => p.2.length == 36).length := by
  unfold roleHits
  rw [List.filter_append, List.length_append, sp_filterMap_filter_sp]
  by_cases hc : 3 < (ownerPairs ras ownerId).length
  · simp [hc, isSpHit]
  · simp [hc]

theorem hasStar_iff (v : PolicyValue) :
    hasStar v = true ↔
    (v = PolicyValue.str "*" ∨ ∃ l, v = PolicyValue.list l ∧ "*" ∈ l) := by
  cases v with
  | str s => simp [hasStar]
  | list l => simp [hasStar]
  | absent => simp [hasStar]

/-! ### Claim theorems -/

/-- C4 (code bug): the compliance summary endpoints never report any
percentage at all.  Both get_compliance_summary and get_standard_summary
evaluate db.Integer on the SQLAlchemy Session while building their
aggregation query; the Session class has no attribute Integer, so every
request raises AttributeError, which the blanket exception handler converts
into an HTTP 500 — for every input, including the empty one that the claim
says must yield total=0, compliant=0, percentage=0. -/
theorem claim_C4_http500 :
    ∀ (prov : Option CloudProvider) (fs : List ComplianceFindingR) (std : String),
      get_compliance_summary prov fs = Except.error 500 ∧
      get_standard_summary std prov fs = Except.error 500 := by
  intro prov fs std
  exact ⟨rfl, rfl⟩

/-- C5: the GuardDuty numeric severity normalizer maps a score s to CRITICAL
when 7 ≤ s, to HIGH when 5 ≤ s < 7, to MEDIUM when 3 ≤ s < 5, to LOW when
1 ≤ s < 3, and to INFO when s < 1 (thresholds inclusive on the lower bound,
first match winning), and every GuardDuty finding is normalized through this
function applied to its native score (default 0). -/
theorem claim_C5_numeric_thresholds :
    (∀ s : ℚ,
      (7 ≤ s → guarddutySeverity s = SeverityLevel.CRITICAL) ∧
      (5 ≤ s → s < 7 → guarddutySeverity s = SeverityLevel.HIGH) ∧
      (3 ≤ s → s < 5 → guarddutySeverity s = SeverityLevel.MEDIUM) ∧
      (1 ≤ s → s < 3 → guarddutySeverity s = SeverityLevel.LOW) ∧
      (s < 1 → guarddutySeverity s = SeverityLevel.INFO)) ∧
    (∀ (ctx : ScanCtx) (k : Nat) (f : GDFinding),
      (mkGdVuln ctx k f).severity = guarddutySeverity (f.severity.getD 0)) := by
  constructor
  · intro s
    unfold guarddutySeverity
    refine ⟨?_, ?_, ?_, ?_, ?_⟩ <;> intros <;> split_ifs <;> first | rfl | linarith
  · intro ctx k f
    rfl

/-- Witness for C5: concrete scores on each side of the thresholds. -/
theorem claim_C5_numeric_thresholds_witness :
    guarddutySeverity 8 = SeverityLevel.CRITICAL ∧
    guarddutySeverity 2 = SeverityLevel.LOW ∧
    guarddutySeverity (1/2) = SeverityLevel.INFO :=
  ⟨(claim_C5_numeric_thresholds.1 8).1 (by norm_num),
   (claim_C5_numeric_thresholds.1 2).2.2.2.1 (by norm_num) (by norm_num),
   (claim_C5_numeric_thresholds.1 (1/2)).2.2.2.2 (by norm_num)⟩

/-- C6: severity normalization of categorical labels is total and uses a
per-source default: a label outside the Security Hub table maps to LOW, a
label outside the Security Center table (or a missing one) maps to MEDIUM,
each scanner applies its own table, and neither default is CRITICAL. -/
theorem claim_C6_default_severity :
    (∀ label : String, label ∉ ["CRITICAL", "HIGH", "MEDIUM", "LOW", "INFORMATIONAL"] →
      securityHubSeverity label = SeverityLevel.LOW) ∧
    (∀ label : String, label ∉ ["High", "Medium", "Low"] →
      securityCenterSeverity (some label) = SeverityLevel.MEDIUM) ∧
    securityCenterSeverity none = SeverityLevel.MEDIUM ∧
    (∀ (ctx : ScanCtx) (k : Nat) (f : SHFinding),
      (mkShVuln ctx k f).severity = securityHubSeverity (f.severityLabel.getD "LOW")) ∧
    (∀ (ctx : ScanCtx) (lo : String → Option String) (k : Nat) (a : ScAssessment),
      (mkScVuln ctx lo k a).severity = securityCenterSeverity a.statusSeverity) ∧
    SeverityLevel.LOW ≠ SeverityLevel.CRITICAL ∧
    SeverityLevel.MEDIUM ≠ SeverityLevel.CRITICAL := by
  refine ⟨?_, ?_, rfl, fun _ _ _ => rfl, fun _ _ _ _ => rfl, by decide, by decide⟩
  · intro label h
    simp only [List.mem_cons, List.not_mem_nil, or_false, not_or] at h
    obtain ⟨h1, h2, h3, h4, h5⟩ := h
    unfold securityHubSeverity
    rw [if_neg h1, if_neg h2, if_neg h3, if_neg h4, if_neg h5]
  · intro label h
    simp only [List.mem_cons, List.not_mem_nil, or_false, not_or] at h
    obtain ⟨h1, h2, h3⟩ := h
    show (if label = "High" then SeverityLevel.HIGH
      else if label = "Medium" then SeverityLevel.MEDIUM
      else if label = "Low" then SeverityLevel.LOW
      else SeverityLevel.MEDIUM) = SeverityLevel.MEDIUM
    rw [if_neg h1, if_neg h2, if_neg h3]

/-- Witness for C6: a label outside both vocabularies takes each per-source
default. -/
theorem claim_C6_default_severity_witness :
    securityHubSeverity "Sev42" = SeverityLevel.LOW ∧
    securityCenterSeverity (some "Sev42") = SeverityLevel.MEDIUM :=
  ⟨claim_C6_default_severity.1 "Sev42" (by decide),
   claim_C6_default_severity.2.1 "Sev42" (by decide)⟩

/-- C7: a policy statement is flagged exactly when Effect is Allow and
Action and Resource each contain the wildcard, evaluated uniformly as a
scalar equal to the wildcard or a list containing it; every emitted IAM
finding is CRITICAL; and over any policy list, the scan emits exactly one
finding per matching statement (so none for non-matching statements). -/
theorem claim_C7_iam_star :
    (∀ s : IamStatement, overlyPermissive s = true ↔
      (s.Effect = some "Allow" ∧
       (s.Action = PolicyValue.str "*" ∨ ∃ l, s.Action = PolicyValue.list l ∧ "*" ∈ l) ∧
       (s.Resource = PolicyValue.str "*" ∨ ∃ l, s.Resource = PolicyValue.list l ∧ "*" ∈ l))) ∧
    (∀ (ctx : ScanCtx) (resp : Except PyError (List IamPolicy)) (v : Vulnerability),
      v ∈ scan_iam_policies ctx resp → v.severity = SeverityLevel.CRITICAL) ∧
    (∀ (ctx : ScanCtx) (ps : List (String × String × List StatementItem)),
      (scan_iam_policies ctx (Except.ok (ps.map mkPurePolicy))).length =
      (ps.map fun t => (t.2.2.filterMap matchingStatement).length).sum) ∧
    (∀ st : StatementItem, (matchingStatement st).isSome = true ↔
      ∃ s, st = StatementItem.dict s ∧ overlyPermissive s = true) := by
  refine ⟨?_, ?_, ?_, ?_⟩
  · intro s
    unfold overlyPermissive
    simp only [Bool.and_eq_true, beq_iff_eq, hasStar_iff]
    tauto
  · intro ctx resp v hv
    unfold scan_iam_policies at hv
    cases hE : (do
        let ps ← resp
        iamHitsE ps : Except PyError (List (IamPolicy × IamStatement))) with
    | error e => rw [hE] at hv; simp at hv
    | ok hits =>
      rw [hE] at hv
      rcases mem_enumFromN_map hv with ⟨k, b, _, rfl⟩
      rfl
  · intro ctx ps
    unfold scan_iam_policies
    rw [show ((do
        let ps' ← Except.ok (ps.map mkPurePolicy)
        iamHitsE ps') : Except PyError (List (IamPolicy × IamStatement))) =
        iamHitsE (ps.map mkPurePolicy) from rfl]
    unfold iamHitsE
    rw [iamFold_ok_concrete ps []]
    simp [enumFromN_length, List.length_flatMap, Function.comp_def]
  · intro st
    cases st with
    | dict s =>
      by_cases hop : overlyPermissive s
      · simp [matchingStatement, hop]
      · simp [matchingStatement, hop]
    | nondict => simp [matchingStatement]

/-- Witness for C7: a concrete wildcard statement produces one CRITICAL
finding and matches the characterizations. -/
theorem claim_C7_iam_star_witness :
    overlyPermissive ⟨some "Allow", PolicyValue.str "*",
      PolicyValue.list ["s3:GetObject", "*"]⟩ = true ∧
    (scan_iam_policies ⟨fun n => "uuid-" ++ toString n, 0, "us-east-1"⟩
      (Except.ok ([("pid-1", "admin-policy",
        [StatementItem.dict ⟨some "Allow", PolicyValue.str "*", PolicyValue.str "*"⟩,
         StatementItem.dict ⟨some "Deny", PolicyValue.str "*", PolicyValue.str "*"⟩])].map
           mkPurePolicy))).length = 1 :=
  ⟨(claim_C7_iam_star.1 ⟨some "Allow", PolicyValue.str "*",
      PolicyValue.list ["s3:GetObject", "*"]⟩).2
      ⟨rfl, Or.inl rfl, Or.inr ⟨["s3:GetObject", "*"], rfl, by decide⟩⟩,
   by
    rw [claim_C7_iam_star.2.2.1 ⟨fun n => "uuid-" ++ toString n, 0, "us-east-1"⟩
      [("pid-1", "admin-policy",
        [StatementItem.dict ⟨some "Allow", PolicyValue.str "*", PolicyValue.str "*"⟩,
         StatementItem.dict ⟨some "Deny", PolicyValue.str "*", PolicyValue.str "*"⟩])]]
    decide⟩

/-- C8: when more than 3 Owner role assignments exist (and the Owner and
Contributor role ids resolve), the scan emits exactly one account-level
finding, with 3 or fewer it emits none, it emits exactly one finding per
Owner assignment whose principal id has the 36-character UUID shape, and
every finding the scan emits is HIGH. -/
theorem claim_C8_owner_threshold :
    ∀ (ctx : ScanCtx) (sub : String) (rds : List RoleDefinition)
      (ras : List RoleAssignment) (ow co : String),
      findRoleIds rds = (some ow, some co) → ow.isEmpty = false → co.isEmpty = false →
      ((3 < (ownerPairs ras ow).length →
        ((scan_role_assignments ctx sub (Except.ok rds) (Except.ok ras)).filter
          fun v => v.resource_type == "Subscription").length = 1) ∧
       ((ownerPairs ras ow).length ≤ 3 →
        ((scan_role_assignments ctx sub (Except.ok rds) (Except.ok ras)).filter
          fun v => v.resource_type == "Subscription").length = 0) ∧
       ((scan_role_assignments ctx sub (Except.ok rds) (Except.ok ras)).filter
          fun v => v.resource_type == "RoleAssignment").length =
        ((ownerPairs ras ow).filter fun p => p.2.length == 36).length ∧
       (∀ v ∈ scan_role_assignments ctx sub (Except.ok rds) (Except.ok ras),
         v.severity = SeverityLevel.HIGH)) := by
  intro ctx sub rds ras ow co hfind how hco
  have hpair : scan_role_assignments ctx sub (Except.ok rds) (Except.ok ras) =
      (if pyFalsy (findRoleIds rds).1 || pyFalsy (findRoleIds rds).2 then []
       else match (findRoleIds rds).1 with
         | some ownerId =>
           (enumFromN 0 (roleHits ras ownerId)).map fun q => mkRoleVuln ctx sub q.1 q.2
         | none => []) := rfl
  have hscan : scan_role_assignments ctx sub (Except.ok rds) (Except.ok ras) =
      (enumFromN 0 (roleHits ras ow)).map fun q => mkRoleVuln ctx sub q.1 q.2 := by
    rw [hpair, hfind]
    simp [pyFalsy, how, hco]
  have hacct := length_filter_enumFromN_map (fun q => mkRoleVuln ctx sub q.1 q.2)
    (fun v => v.resource_type == "Subscription") isAccountHit
    (fun k b => by cases b <;> rfl) 0 (roleHits ras ow)
  have hsp := length_filter_enumFromN_map (fun q => mkRoleVuln ctx sub q.1 q.2)
    (fun v => v.resource_type == "RoleAssignment") isSpHit
    (fun k b => by cases b <;> rfl) 0 (roleHits ras ow)
  refine ⟨?_, ?_, ?_, ?_⟩
  · intro hgt
    rw [hscan, hacct, roleHits_filter_account, if_pos hgt]
  · intro hle
    rw [hscan, hacct, roleHits_filter_account, if_neg (by omega)]
  · rw [hscan, hsp, roleHits_filter_sp]
  · intro v hv
    rw [hscan] at hv
    rcases mem_enumFromN_map hv with ⟨k, b, _, rfl⟩
    cases b <;> rfl

/-- Witness for C8: two role definitions, four Owner assignments of which one
principal has the UUID shape: one account-level finding and one
service-principal finding. -/
theorem claim_C8_owner_threshold_witness :
    ((scan_role_assignments ⟨fun n => "uuid-" ++ toString n, 0, "eastus"⟩ "sub-1"
      (Except.ok [⟨"Owner", "role-owner"⟩, ⟨"Contributor", "role-contrib"⟩])
      (Except.ok [⟨"a1", "role-owner", "123e4567-e89b-12d3-a456-426614174000"⟩,
                  ⟨"a2", "role-owner", "alice"⟩,
                  ⟨"a3", "role-owner", "bob"⟩,
                  ⟨"a4", "role-owner", "carol"⟩])).filter
        fun v => v.resource_type == "Subscription").length = 1 ∧
    ((scan_role_assignments ⟨fun n => "uuid-" ++ toString n, 0, "eastus"⟩ "sub-1"
      (Except.ok [⟨"Owner", "role-owner"⟩, ⟨"Contributor", "role-contrib"⟩])
      (Except.ok [⟨"a1", "role-owner", "123e4567-e89b-12d3-a456-426614174000"⟩,
                  ⟨"a2", "role-owner", "alice"⟩,
                  ⟨"a3", "role-owner", "bob"⟩,
                  ⟨"a4", "role-owner", "carol"⟩])).filter
        fun v => v.resource_type == "RoleAssignment").length = 1 := by
  have h := claim_C8_owner_threshold ⟨fun n => "uuid-" ++ toString n, 0, "eastus"⟩ "sub-1"
    [⟨"Owner", "role-owner"⟩, ⟨"Contributor", "role-contrib"⟩]
    [⟨"a1", "role-owner", "123e4567-e89b-12d3-a456-426614174000"⟩,
     ⟨"a2", "role-owner", "alice"⟩,
     ⟨"a3", "role-owner", "bob"⟩,
     ⟨"a4", "role-owner", "carol"⟩]
    "role-owner" "role-contrib" rfl rfl rfl
  refine ⟨h.1 (by decide), ?_⟩
  rw [h.2.2.1]
  decide

/-- C10: every scan method of either scanner emits only findings whose
status is OPEN and whose detected_at is the creation timestamp of the scan,
and whose ids are the successive outputs of the uuid generator (fresh ids,
one per finding); no other lifecycle state is ever emitted. -/
theorem claim_C10_fresh_open :
    ∀ ctx : ScanCtx,
    (∀ r, freshOpenBatch ctx (scan_security_groups ctx r)) ∧
    (∀ r, freshOpenBatch ctx (scan_s3_buckets ctx r)) ∧
    (∀ r, freshOpenBatch ctx (scan_iam_policies ctx r)) ∧
    (∀ pr r, freshOpenBatch ctx (fetch_security_hub_findings ctx pr r)) ∧
    (∀ r, freshOpenBatch ctx (fetch_guardduty_findings ctx r)) ∧
    (∀ r, freshOpenBatch ctx (scan_network_security_groups ctx r)) ∧
    (∀ r, freshOpenBatch ctx (scan_storage_accounts ctx r)) ∧
    (∀ lo r, freshOpenBatch ctx (fetch_security_center_recommendations ctx lo r)) ∧
    (∀ sub r1 r2, freshOpenBatch ctx (scan_role_assignments ctx sub r1 r2)) := by
  intro ctx
  refine ⟨?_, ?_, ?_, ?_, ?_, ?_, ?_, ?_, ?_⟩
  · intro r
    unfold scan_security_groups
    split
    · exact freshOpenBatch_nil ctx
    · exact freshOpenBatch_enum ctx _ (fun k b => rfl) (fun k b => rfl) (fun k b => rfl) _
  · intro r
    unfold scan_s3_buckets
    split
    · exact freshOpenBatch_nil ctx
    · exact freshOpenBatch_enum ctx _
        (fun k b => by rcases b with ⟨bk, i⟩; cases i <;> rfl)
        (fun k b => by rcases b with ⟨bk, i⟩; cases i <;> rfl)
        (fun k b => by rcases b with ⟨bk, i⟩; cases i <;> rfl) _
  · intro r
    unfold scan_iam_policies
    split
    · exact freshOpenBatch_nil ctx
    · exact freshOpenBatch_enum ctx _ (fun k b => rfl) (fun k b => rfl) (fun k b => rfl) _
  · intro pr r
    unfold fetch_security_hub_findings
    split
    · exact freshOpenBatch_nil ctx
    · split
      · exact freshOpenBatch_nil ctx
      · exact freshOpenBatch_enum ctx _ (fun k b => rfl) (fun k b => rfl) (fun k b => rfl) _
  · intro r
    unfold fetch_guardduty_findings
    split
    · exact freshOpenBatch_nil ctx
    · exact freshOpenBatch_enum ctx _ (fun k b => rfl) (fun k b => rfl) (fun k b => rfl) _
  · intro r
    unfold scan_network_security_groups
    split
    · exact freshOpenBatch_nil ctx
    · exact freshOpenBatch_enum ctx _ (fun k b => rfl) (fun k b => rfl) (fun k b => rfl) _
  · intro r
    unfold scan_storage_accounts
    split
    · exact freshOpenBatch_nil ctx
    · exact freshOpenBatch_enum ctx _
        (fun k b => by rcases b with ⟨a, i⟩; cases i <;> rfl)
        (fun k b => by rcases b with ⟨a, i⟩; cases i <;> rfl)
        (fun k b => by rcases b with ⟨a, i⟩; cases i <;> rfl) _
  · intro lo r
    unfold fetch_security_center_recommendations
    split
    · exact freshOpenBatch_nil ctx
    · exact freshOpenBatch_enum ctx _ (fun k b => rfl) (fun k b => rfl) (fun k b => rfl) _
  · intro sub r1 r2
    unfold scan_role_assignments
    split
    · exact freshOpenBatch_nil ctx
    · dsimp only
      split
      · exact freshOpenBatch_nil ctx
      · split
        · exact freshOpenBatch_enum ctx _
            (fun k b => by cases b <;> rfl)
            (fun k b => by cases b <;> rfl)
            (fun k b => by cases b <;> rfl) _
        · exact freshOpenBatch_nil ctx

/-- Witness for C10: the invariant evaluated on a concrete scan of one
security group with an open SSH ingress rule. -/
theorem claim_C10_fresh_open_witness :
    freshOpenBatch ⟨fun n => "uuid-" ++ toString n, 7, "us-east-1"⟩
      (scan_security_groups ⟨fun n => "uuid-" ++ toString n, 7, "us-east-1"⟩
        (Except.ok [⟨"sg-1", some "web",
          [⟨some 22, some 22, some "tcp", [⟨some "0.0.0.0/0"⟩]⟩]⟩])) :=
  (claim_C10_fresh_open ⟨fun n => "uuid-" ++ toString n, 7, "us-east-1"⟩).1 _

/-- Counterexample for C1: an AWS ingress permission open to 0.0.0.0/0 with
port range 20-25.  Its destination port set intersects the administrative set
(it contains 22), so the claim demands CRITICAL, but the code only tests
FromPort for membership and emits MEDIUM. -/
theorem claim_C1_counterexample :
    specAdminIntersect ⟨some 20, some 25, some "tcp", [⟨some "0.0.0.0/0"⟩]⟩ = true ∧
    ((scan_security_groups ⟨fun n => "uuid-" ++ toString n, 0, "us-east-1"⟩
        (Except.ok [⟨"sg-1", some "web",
          [⟨some 20, some 25, some "tcp", [⟨some "0.0.0.0/0"⟩]⟩]⟩])).map
      fun v => v.severity) = [SeverityLevel.MEDIUM] :=
  ⟨rfl, rfl⟩

/-- C1 (amended): for a flagged AWS ingress permission the severity is
CRITICAL exactly when its FromPort value is one of {22, 3389, 1433, 3306,
5432} (the port set is not inspected beyond FromPort), MEDIUM otherwise, and
every emitted security-group finding carries that severity; for a flagged
Azure NSG rule the severity is CRITICAL exactly when the port string is one
of 22/3389/1433/3306/5432/* or a parseable dashed range containing 22 or
3389, HIGH otherwise, and every emitted NSG finding carries the severity of
its rule. -/
theorem claim_C1_severity :
    (∀ p : IpPermission,
      (awsSgRuleSeverity p = SeverityLevel.CRITICAL ↔
        ∃ fp, p.FromPort = some fp ∧ fp ∈ adminPorts) ∧
      (awsSgRuleSeverity p = SeverityLevel.CRITICAL ∨
        awsSgRuleSeverity p = SeverityLevel.MEDIUM)) ∧
    (∀ (ctx : ScanCtx) (sgs : List SecurityGroup) (v : Vulnerability),
      v ∈ scan_security_groups ctx (Except.ok sgs) →
      ∃ sg p, sg ∈ sgs ∧ p ∈ sg.IpPermissions ∧
        (∃ r ∈ p.IpRanges, r.CidrIp = some "0.0.0.0/0") ∧
        v.severity = awsSgRuleSeverity p) ∧
    (∀ pr : String,
      (azureNsgRuleSeverity pr = SeverityLevel.CRITICAL ↔
        (pr ∈ criticalPortStrings ∨
         (pyContains pr '-' = true ∧ ∃ a b, parsePortRangePair pr = some (a, b) ∧
           ((a ≤ 22 ∧ 22 ≤ b) ∨ (a ≤ 3389 ∧ 3389 ≤ b))))) ∧
      (azureNsgRuleSeverity pr = SeverityLevel.CRITICAL ∨
        azureNsgRuleSeverity pr = SeverityLevel.HIGH)) ∧
    (∀ (ctx : ScanCtx) (nsgs : List Nsg) (v : Vulnerability),
      v ∈ scan_network_security_groups ctx (Except.ok nsgs) →
      ∃ nsg r pr, nsg ∈ nsgs ∧ r ∈ nsg.security_rules ∧ nsgRuleFlagged r = true ∧
        r.destination_port_range = some pr ∧ v.severity = azureNsgRuleSeverity pr) := by
  refine ⟨?_, ?_, ?_, fun ctx nsgs v hv => scan_nsg_mem hv⟩
  · intro p
    constructor
    · cases hfp : p.FromPort with
      | none => simp [awsSgRuleSeverity, hfp]
      | some fp =>
        by_cases hmem : fp ∈ adminPorts
        · simp [awsSgRuleSeverity, hfp, hmem]
        · simp [awsSgRuleSeverity, hfp, hmem]
    · cases hfp : p.FromPort with
      | none => right; simp [awsSgRuleSeverity, hfp]
      | some fp =>
        by_cases hmem : fp ∈ adminPorts
        · left; simp [awsSgRuleSeverity, hfp, hmem]
        · right; simp [awsSgRuleSeverity, hfp, hmem]
  · intro ctx sgs v hv
    unfold scan_security_groups at hv
    rcases mem_enumFromN_map hv with ⟨k, b, hb, rfl⟩
    simp only [awsSgHits, List.mem_flatMap, List.mem_map, List.mem_filter] at hb
    rcases hb with ⟨sg, hsg, p, hp, r, hr, rfl⟩
    exact ⟨sg, p, hsg, hp, ⟨r, hr.1, by simpa using hr.2⟩, rfl⟩
  · intro pr
    by_cases h1 : pr ∈ criticalPortStrings
    · constructor
      · simp [azureNsgRuleSeverity, nsgRuleIsCritical, h1]
      · left; simp [azureNsgRuleSeverity, nsgRuleIsCritical, h1]
    · by_cases h2 : pyContains pr '-'
      · cases hp : parsePortRangePair pr with
        | none =>
          constructor
          · simp [azureNsgRuleSeverity, nsgRuleIsCritical, h1, h2, hp]
          · right; simp [azureNsgRuleSeverity, nsgRuleIsCritical, h1, h2, hp]
        | some ab =>
          rcases ab with ⟨a, b⟩
          constructor
          · simp only [azureNsgRuleSeverity, nsgRuleIsCritical, h1, if_false, h2, if_true, hp]
            constructor
            · intro hcrit
              right
              refine ⟨trivial, a, b, rfl, ?_⟩
              by_cases hc : (decide (22 ≥ a) && decide (22 ≤ b) ||
                  (decide (3389 ≥ a) && decide (3389 ≤ b)) : Bool) = true
              · simp only [Bool.or_eq_true, Bool.and_eq_true, decide_eq_true_eq] at hc
                rcases hc with ⟨hc1, hc2⟩ | ⟨hc1, hc2⟩
                · exact Or.inl ⟨by linarith, hc2⟩
                · exact Or.inr ⟨by linarith, hc2⟩
              · rw [if_neg hc] at hcrit
                cases hcrit
            · intro h
              rcases h with h | ⟨_, a', b', hab, hcase⟩
              · exact h.elim
              · obtain ⟨ha', hb'⟩ : a = a' ∧ b = b' := by simpa using hab
                subst ha'
                subst hb'
                have : (decide (22 ≥ a) && decide (22 ≤ b) ||
                    (decide (3389 ≥ a) && decide (3389 ≤ b)) : Bool) = true := by
                  simp only [Bool.or_eq_true, Bool.and_eq_true, decide_eq_true_eq]
                  rcases hcase with ⟨hl, hr⟩ | ⟨hl, hr⟩
                  · exact Or.inl ⟨by linarith, hr⟩
                  · exact Or.inr ⟨by linarith, hr⟩
                rw [if_pos this]
          · unfold azureNsgRuleSeverity
            by_cases hc : nsgRuleIsCritical pr
            · left; rw [if_pos hc]
            · right; rw [if_neg hc]
      · constructor
        · simp [azureNsgRuleSeverity, nsgRuleIsCritical, h1, h2]
        · right; simp [azureNsgRuleSeverity, nsgRuleIsCritical, h1, h2]

/-- Witness for C1 (amended): a FromPort of 22 is CRITICAL on AWS, and the
port string 3389 is CRITICAL on Azure. -/
theorem claim_C1_severity_witness :
    awsSgRuleSeverity ⟨some 22, some 22, some "tcp", [⟨some "0.0.0.0/0"⟩]⟩ =
      SeverityLevel.CRITICAL ∧
    azureNsgRuleSeverity "3389" = SeverityLevel.CRITICAL :=
  ⟨(claim_C1_severity.1 ⟨some 22, some 22, some "tcp", [⟨some "0.0.0.0/0"⟩]⟩).1.2
      ⟨22, rfl, by decide⟩,
   (claim_C1_severity.2.2.1 "3389").1.2 (Or.inl (by decide))⟩

/-- Counterexample for C2: an Azure storage account with encryption fully
absent (blob and file both disabled) still yields a single MEDIUM finding,
where the claim demands HIGH for total absence; total and partial absence
are conflated on Azure. -/
theorem claim_C2_counterexample :
    ((scan_storage_accounts ⟨fun n => "uuid-" ++ toString n, 0, "eastus"⟩
        (Except.ok [⟨"/subscriptions/s/resourceGroups/rg/sa1", "acc1", "eastus",
          false, true, false, false⟩])).map fun v => v.severity) =
      [SeverityLevel.MEDIUM] :=
  rfl

/-- C2 (amended): on AWS every storage finding (absent default encryption or
missing public-access blocks) is HIGH; an AWS bucket is flagged as
unencrypted exactly when the encryption lookup failed with the
configuration-not-found client error.  On Azure a single MEDIUM
incomplete-encryption finding is emitted exactly when blob or file
encryption is disabled — covering partial AND total absence alike — and
every Azure storage finding is MEDIUM or HIGH. -/
theorem claim_C2_severity :
    (∀ (ctx : ScanCtx) (r : Except PyError (List S3Bucket)) (v : Vulnerability),
      v ∈ scan_s3_buckets ctx r → v.severity = SeverityLevel.HIGH) ∧
    (∀ b : S3Bucket, S3Issue.notEncrypted ∈ s3BucketIssues b ↔
      b.encResult = S3EncResult.clientErr "ServerSideEncryptionConfigurationNotFoundError") ∧
    (∀ a : StorageAccount, StorageIssue.encryptionIncomplete ∈ storageIssues a ↔
      (a.encryption_blob_enabled = false ∨ a.encryption_file_enabled = false)) ∧
    (∀ (ctx : ScanCtx) (k : Nat) (h : StorageAccount × StorageIssue),
      (mkStorageVuln ctx k h).severity =
        (match h.2 with
         | StorageIssue.encryptionIncomplete => SeverityLevel.MEDIUM
         | _ => SeverityLevel.HIGH)) ∧
    (∀ (ctx : ScanCtx) (r : Except PyError (List StorageAccount)) (v : Vulnerability),
      v ∈ scan_storage_accounts ctx r →
        (v.severity = SeverityLevel.MEDIUM ∨ v.severity = SeverityLevel.HIGH)) := by
  refine ⟨?_, ?_, ?_, ?_, ?_⟩
  · intro ctx r v hv
    unfold scan_s3_buckets at hv
    cases hE : (do
        let buckets ← r
        s3HitsE buckets : Except PyError (List (S3Bucket × S3Issue))) with
    | error e => rw [hE] at hv; simp at hv
    | ok hits =>
      rw [hE] at hv
      rcases mem_enumFromN_map hv with ⟨k, b, _, rfl⟩
      rcases b with ⟨bk, i⟩
      cases i <;> rfl
  · intro b
    rcases b with ⟨nm, er, pab⟩
    cases er with
    | configured =>
      cases pab with
      | none => simp [s3BucketIssues]
      | some cfg =>
        simp only [s3BucketIssues, List.nil_append]
        split_ifs <;> simp
    | clientErr code =>
      cases pab with
      | none =>
        simp only [s3BucketIssues, List.append_nil]
        split_ifs with hc <;> simp [hc]
      | some cfg =>
        simp only [s3BucketIssues]
        split_ifs with hc hp <;> simp [hc]
    | fatal e =>
      cases pab with
      | none => simp [s3BucketIssues]
      | some cfg =>
        simp only [s3BucketIssues, List.nil_append]
        split_ifs <;> simp
  · intro a
    rcases a with ⟨aid, nm, loc, pub, https, blob, file⟩
    cases pub <;> cases https <;> cases blob <;> cases file <;> simp [storageIssues]
  · intro ctx k h
    rcases h with ⟨a, i⟩
    cases i <;> rfl
  · intro ctx r v hv
    unfold scan_storage_accounts at hv
    cases hE : (do
        let accounts ← r
        storageHitsE accounts : Except PyError (List (StorageAccount × StorageIssue))) with
    | error e => rw [hE] at hv; simp at hv
    | ok hits =>
      rw [hE] at hv
      rcases mem_enumFromN_map hv with ⟨k, b, _, rfl⟩
      rcases b with ⟨a, i⟩
      cases i with
      | publicAccess => right; rfl
      | noHttps => right; rfl
      | encryptionIncomplete => left; rfl

/-- Witness for C2 (amended): a bucket missing its encryption configuration
is flagged, and an account with both encryption services disabled receives
the incomplete-encryption issue. -/
theorem claim_C2_severity_witness :
    S3Issue.notEncrypted ∈ s3BucketIssues
      ⟨"bkt", S3EncResult.clientErr "ServerSideEncryptionConfigurationNotFoundError",
       some ⟨true, true, true, true⟩⟩ ∧
    StorageIssue.encryptionIncomplete ∈ storageIssues
      ⟨"/subscriptions/s/resourceGroups/rg/sa1", "acc1", "eastus", false, true, false, false⟩ :=
  ⟨(claim_C2_severity.2.1 ⟨"bkt",
      S3EncResult.clientErr "ServerSideEncryptionConfigurationNotFoundError",
      some ⟨true, true, true, true⟩⟩).2 rfl,
   (claim_C2_severity.2.2.1 ⟨"/subscriptions/s/resourceGroups/rg/sa1", "acc1", "eastus",
      false, true, false, false⟩).2 (Or.inl rfl)⟩

/-- Counterexample for C3: scan_all returns an identical value whether the
security-group detector failed with a provider error or legitimately found
nothing, so the returned scan result cannot contain any recorded error entry
for the failed group (the value is a bare finding list); the claim that the
result carries an error entry for the failed group is false. -/
theorem claim_C3_counterexample :
    aws_scan_all ⟨fun n => "uuid-" ++ toString n, 0, "us-east-1"⟩
      (Except.error PyError.providerUnavailable)
      (Except.ok [⟨"bkt", S3EncResult.clientErr "ServerSideEncryptionConfigurationNotFoundError",
        some ⟨true, true, true, true⟩⟩])
      (Except.ok []) (Except.ok ()) (Except.ok []) (Except.ok []) =
    aws_scan_all ⟨fun n => "uuid-" ++ toString n, 0, "us-east-1"⟩
      (Except.ok [])
      (Except.ok [⟨"bkt", S3EncResult.clientErr "ServerSideEncryptionConfigurationNotFoundError",
        some ⟨true, true, true, true⟩⟩])
      (Except.ok []) (Except.ok ()) (Except.ok []) (Except.ok []) ∧
    (aws_scan_all ⟨fun n => "uuid-" ++ toString n, 0, "us-east-1"⟩
      (Except.error PyError.providerUnavailable)
      (Except.ok [⟨"bkt", S3EncResult.clientErr "ServerSideEncryptionConfigurationNotFoundError",
        some ⟨true, true, true, true⟩⟩])
      (Except.ok []) (Except.ok ()) (Except.ok []) (Except.ok [])).length = 1 :=
  ⟨rfl, rfl⟩

/-- C3 (amended): when one detector group fails, scan_all still returns the
concatenated findings of the other groups (each finding of a successful
group is in the result, and the value equals the one obtained when the
failed group merely returns nothing); the failure is swallowed inside the
group — it is only logged, not recorded in the returned value, and it is
never propagated to the caller. -/
theorem claim_C3_isolation :
    ∀ (ctx : ScanCtx) (e : PyError)
      (r2 : Except PyError (List S3Bucket)) (r3 : Except PyError (List IamPolicy))
      (r4 : Except PyError Unit) (r5 : Except PyError (List SHFinding))
      (r6 : Except PyError (List GDDetector))
      (sub : String) (a2 : Except PyError (List StorageAccount))
      (lo : String → Option String) (a3 : Except PyError (List ScAssessment))
      (a4 : Except PyError (List RoleDefinition)) (a5 : Except PyError (List RoleAssignment)),
      (aws_scan_all ctx (Except.error e) r2 r3 r4 r5 r6 =
        aws_scan_all ctx (Except.ok []) r2 r3 r4 r5 r6) ∧
      (∀ v ∈ scan_s3_buckets ctx r2, v ∈ aws_scan_all ctx (Except.error e) r2 r3 r4 r5 r6) ∧
      (azure_scan_all ctx sub (Except.error e) a2 lo a3 a4 a5 =
        azure_scan_all ctx sub (Except.ok []) a2 lo a3 a4 a5) ∧
      (∀ v ∈ scan_storage_accounts ctx a2,
        v ∈ azure_scan_all ctx sub (Except.error e) a2 lo a3 a4 a5) := by
  intro ctx e r2 r3 r4 r5 r6 sub a2 lo a3 a4 a5
  refine ⟨rfl, ?_, rfl, ?_⟩
  · intro v hv
    unfold aws_scan_all
    rw [show scan_security_groups ctx (Except.error e) = [] from rfl, List.nil_append]
    exact List.mem_append.2 (Or.inl (List.mem_append.2 (Or.inl
      (List.mem_append.2 (Or.inl hv)))))
  · intro v hv
    unfold azure_scan_all
    rw [show scan_network_security_groups ctx (Except.error e) = [] from rfl, List.nil_append]
    exact List.mem_append.2 (Or.inl (List.mem_append.2 (Or.inl hv)))

/-- Witness for C3 (amended): the single finding of a successful S3 group is
in the scan-all result even though the security-group group failed. -/
theorem claim_C3_isolation_witness :
    mkS3Vuln ⟨fun n => "uuid-" ++ toString n, 0, "us-east-1"⟩ 0
      (⟨"bkt", S3EncResult.clientErr "ServerSideEncryptionConfigurationNotFoundError",
        some ⟨true, true, true, true⟩⟩, S3Issue.notEncrypted) ∈
    aws_scan_all ⟨fun n => "uuid-" ++ toString n, 0, "us-east-1"⟩
      (Except.error PyError.providerUnavailable)
      (Except.ok [⟨"bkt", S3EncResult.clientErr "ServerSideEncryptionConfigurationNotFoundError",
        some ⟨true, true, true, true⟩⟩])
      (Except.ok []) (Except.ok ()) (Except.ok []) (Except.ok []) :=
  (claim_C3_isolation ⟨fun n => "uuid-" ++ toString n, 0, "us-east-1"⟩
    PyError.providerUnavailable
    (Except.ok [⟨"bkt", S3EncResult.clientErr "ServerSideEncryptionConfigurationNotFoundError",
      some ⟨true, true, true, true⟩⟩])
    (Except.ok []) (Except.ok ()) (Except.ok []) (Except.ok [])
    "sub-1" (Except.ok []) (fun _ => none) (Except.ok []) (Except.ok []) (Except.ok [])).2.1
    _ (by decide)

/-- Counterexample for C9: an NSG with one well-formed flagged rule and one
flagged rule whose destination_port_range is missing loses the whole group:
the scan returns the empty list, although the same NSG without the malformed
rule yields one finding.  The claim that only the single malformed item is
skipped and the detector never raises is false — the TypeError raised on the
missing port range empties the entire group. -/
theorem claim_C9_counterexample :
    scan_network_security_groups ⟨fun n => "uuid-" ++ toString n, 0, "eastus"⟩
      (Except.ok [⟨"/subscriptions/s/resourceGroups/rg/providers/nsg1", "nsg1", "eastus",
        [⟨"allow-ssh", "Allow", "Inbound", some "*", some "22"⟩,
         ⟨"bad-rule", "Allow", "Inbound", some "*", none⟩]⟩]) = [] ∧
    (scan_network_security_groups ⟨fun n => "uuid-" ++ toString n, 0, "eastus"⟩
      (Except.ok [⟨"/subscriptions/s/resourceGroups/rg/providers/nsg1", "nsg1", "eastus",
        [⟨"allow-ssh", "Allow", "Inbound", some "*", some "22"⟩]⟩])).length = 1 :=
  ⟨rfl, rfl⟩

/-- C9 (amended): the AWS security-group detector indeed treats a missing
port range as feature absent (a permission without FromPort is still flagged,
at MEDIUM, and nothing is raised), but the Azure NSG detector raises a
TypeError on any flagged rule whose destination_port_range is missing, and
the group-level handler then discards the whole group: the scan returns the
empty list, losing every other finding of the group, not just the single
malformed item. -/
theorem claim_C9_malformed :
    (∀ p : IpPermission, p.FromPort = none →
      awsSgRuleSeverity p = SeverityLevel.MEDIUM) ∧
    (∀ (ctx : ScanCtx) (nsgs : List Nsg),
      (∃ nsg ∈ nsgs, ∃ r ∈ nsg.security_rules,
        nsgRuleFlagged r = true ∧ r.destination_port_range = none) →
      scan_network_security_groups ctx (Except.ok nsgs) = []) := by
  constructor
  · intro p h
    unfold awsSgRuleSeverity
    rw [h]
  · intro ctx nsgs h
    exact scan_nsg_empty_of_bad_rule h

/-- Witness for C9 (amended): a permission without FromPort maps to MEDIUM,
and a concrete NSG containing a flagged rule with no port range scans to the
empty list. -/
theorem claim_C9_malformed_witness :
    awsSgRuleSeverity ⟨none, none, some "tcp", [⟨some "0.0.0.0/0"⟩]⟩ =
      SeverityLevel.MEDIUM ∧
    scan_network_security_groups ⟨fun n => "uuid-" ++ toString n, 0, "eastus"⟩
      (Except.ok [⟨"/subscriptions/s/resourceGroups/rg/providers/nsg9", "nsg9", "eastus",
        [⟨"good", "Allow", "Inbound", some "Internet", some "443"⟩,
         ⟨"bad", "Allow", "Inbound", some "*", none⟩]⟩]) = [] :=
  ⟨claim_C9_malformed.1 ⟨none, none, some "tcp", [⟨some "0.0.0.0/0"⟩]⟩ rfl,
   claim_C9_malformed.2 ⟨fun n => "uuid-" ++ toString n, 0, "eastus"⟩
     [⟨"/subscriptions/s/resourceGroups/rg/providers/nsg9", "nsg9", "eastus",
       [⟨"good", "Allow", "Inbound", some "Internet", some "443"⟩,
        ⟨"bad", "Allow", "Inbound", some "*", none⟩]⟩]
     ⟨⟨"/subscriptions/s/resourceGroups/rg/providers/nsg9", "nsg9", "eastus",
       [⟨"good", "Allow", "Inbound", some "Internet", some "443"⟩,
        ⟨"bad", "Allow", "Inbound", some "*", none⟩]⟩, by decide,
      ⟨"bad", "Allow", "Inbound", some "*", none⟩, by decide, rfl, rfl⟩⟩

end CloudSecOps
